import Mathlib

/-!
Verification of the owm-rs decoding layer (src/lib.rs): strongly typed serde
models for the OpenWeatherMap One Call API.

The development shallowly embeds the serde/serde_json decoding semantics of the
Rust source:

* JSON values are modelled by `Json`; JSON numbers follow the internal
  representation of a serde_json number (non-negative integer, negative
  integer, or floating point, mirroring the serde_json variants
  `N::PosInt (u64)`, `N::NegInt (i64)`, `N::Float (f64)`).  A float is carried
  as a decimal mantissa/exponent pair; no claim inspects float values, they
  are only passed through.
* derived struct deserialization (serde `#[derive(Deserialize)]`) is modelled
  field by field in declaration order: a required field that is missing is an
  error, a field of type `Option` that is missing decodes to `none`, a `null`
  value for an `Option` field decodes to `none`, duplicate keys are an error,
  unknown keys are ignored.  The derive reports value errors in input order
  while this embedding checks fields in declaration order; no theorem below
  depends on which of several simultaneous faults is reported.
* derived enum deserialization uses the serde default externally tagged
  representation: a JSON string is the name of a unit variant and a one-entry
  JSON map `\x7b"Variant": value\x7d` carries the contents of a newtype variant.
* the jiff time library is modelled by `Timestamp.from_second`, whose
  documented valid range of epoch seconds is
  `-377705023201..=253402207200` (the instants -9999-01-02T01:59:59Z and
  9999-12-30T22:00:00Z); outside this range `from_second` reports a range
  error naming the offending value, and the message of that error is modelled
  by `jiffErrorDisplay`.
-/

set_option autoImplicit false

namespace Owm

/-- Internal representation of a serde_json number: the parser stores a
non-negative integer as `u64`, a negative integer as `i64`, and anything
written with a decimal point or exponent as `f64`.  The float is carried
symbolically as `mantissa * 10 ^ exp`. -/
inductive JsonNumber where
  | posInt (n : Nat)
  | negInt (n : Int)
  | float (mantissa : Int) (exp : Int)
  deriving DecidableEq, Repr

/-- A JSON document; objects keep their fields in input order. -/
inductive Json where
  | null
  | bool (b : Bool)
  | num (n : JsonNumber)
  | str (s : String)
  | arr (elems : List Json)
  | obj (fields : List (String × Json))

/-- Whether a JSON value is the literal `null`. -/
def Json.isNull : Json → Bool
  | .null => true
  | _ => false

/-- The kind of a JSON value, as serde_json names it in invalid-type errors. -/
def Json.kindName : Json → String
  | .null => "null"
  | .bool _ => "boolean"
  | .num (.posInt _) => "integer"
  | .num (.negInt _) => "integer"
  | .num (.float _ _) => "floating point"
  | .str _ => "string"
  | .arr _ => "sequence"
  | .obj _ => "map"

/-- Decode errors, mirroring the serde error kinds produced by the source:
missing field, duplicate field, invalid type, invalid value (out of range),
unknown enum variant, and custom messages (used by the timestamp visitor).
serde also interpolates the offending token into its invalid-type and
invalid-value message text; here those carry the unexpected kind or the
rendered value, which is all any claim inspects. -/
inductive DecErr where
  | missingField (name : String)
  | duplicateField (name : String)
  | invalidType (unexpected : String) (expected : String)
  | invalidValue (unexpected : String) (expected : String)
  | unknownVariant (got : String) (expected : List String)
  | custom (msg : String)
  deriving DecidableEq, Repr

/-- `String::deserialize`: accepts exactly a JSON string. -/
def decodeString : Json → Except DecErr String
  | .str s => .ok s
  | j => .error (.invalidType j.kindName "a string")

/-- `bool::deserialize`: accepts exactly a JSON boolean. -/
def decodeBool : Json → Except DecErr Bool
  | .bool b => .ok b
  | j => .error (.invalidType j.kindName "a boolean")

/-- `f64::deserialize` from serde_json: every JSON number is accepted and
carried through.  Float semantics are not modelled; the decoded value is the
parsed number token itself (no claim inspects an `f64` value). -/
def decodeF64 : Json → Except DecErr JsonNumber
  | .num n => .ok n
  | j => .error (.invalidType j.kindName "f64")

/-- `u8::deserialize` from serde_json: an integral number in `0..=255`. -/
def decodeU8 : Json → Except DecErr Nat
  | .num (.posInt n) =>
      if n ≤ 255 then .ok n else .error (.invalidValue (toString n) "u8")
  | .num (.negInt i) =>
      if 0 ≤ i ∧ i ≤ 255 then .ok i.toNat
      else .error (.invalidValue (toString i) "u8")
  | j => .error (.invalidType j.kindName "u8")

/-- `u16::deserialize` from serde_json: an integral number in `0..=65535`. -/
def decodeU16 : Json → Except DecErr Nat
  | .num (.posInt n) =>
      if n ≤ 65535 then .ok n else .error (.invalidValue (toString n) "u16")
  | .num (.negInt i) =>
      if 0 ≤ i ∧ i ≤ 65535 then .ok i.toNat
      else .error (.invalidValue (toString i) "u16")
  | j => .error (.invalidType j.kindName "u16")

/-- `i64::deserialize` from serde_json: an integral number in the signed
64-bit range. -/
def decodeI64 : Json → Except DecErr Int
  | .num (.posInt n) =>
      if n ≤ 9223372036854775807 then .ok (n : Int)
      else .error (.invalidValue (toString n) "i64")
  | .num (.negInt i) => .ok i
  | j => .error (.invalidType j.kindName "i64")

/-- `i32::deserialize` from serde_json: an integral number in the signed
32-bit range. -/
def decodeI32 : Json → Except DecErr Int
  | .num (.posInt n) =>
      if n ≤ 2147483647 then .ok (n : Int)
      else .error (.invalidValue (toString n) "i32")
  | .num (.negInt i) =>
      if -2147483648 ≤ i then .ok i
      else .error (.invalidValue (toString i) "i32")
  | j => .error (.invalidType j.kindName "i32")

/-- `Option::<T>::deserialize`: JSON `null` is `none`, any other value is
decoded by the inner decoder. -/
def decodeNullable {α : Type} (dec : Json → Except DecErr α) :
    Json → Except DecErr (Option α)
  | .null => .ok none
  | j => (dec j).map some

/-- `Vec::<T>::deserialize`: a JSON array, each element decoded in order. -/
def decodeVec {α : Type} (dec : Json → Except DecErr α) :
    Json → Except DecErr (List α)
  | .arr xs => xs.mapM dec
  | j => .error (.invalidType j.kindName "a sequence")

/-! ### Model of the jiff time library (external dependency)

`jiff::Timestamp` holds whole seconds plus a sub-second nanosecond component;
`jiff::Zoned` pairs a timestamp with a time zone.  The source only ever uses
`Timestamp::from_second` (nanosecond component zero) and `TimeZone::UTC`. -/

/-- Smallest epoch second accepted by `jiff::Timestamp::from_second`
(the instant -9999-01-02T01:59:59Z). -/
def jiffMinSecond : Int := -377705023201

/-- Largest epoch second accepted by `jiff::Timestamp::from_second`
(the instant 9999-12-30T22:00:00Z). -/
def jiffMaxSecond : Int := 253402207200

/-- A jiff error, as produced by `Timestamp::from_second`: the count of
seconds is outside the representable range.  The error carries the offending
value. -/
inductive JiffError where
  | secondOutOfRange (value : Int)
  deriving DecidableEq, Repr

/-- The display rendering of a jiff range error; it names the offending
value and the valid range. -/
def jiffErrorDisplay : JiffError → String
  | .secondOutOfRange v =>
      "parameter second with value " ++ toString v ++
        " is not in the required range of -377705023201..=253402207200"

/-- `jiff::Timestamp`: an instant as whole seconds since the Unix epoch plus
a nanosecond sub-second component. -/
structure Timestamp where
  second : Int
  nanosecond : Nat
  deriving DecidableEq, Repr

/-- The source only ever attaches `jiff::tz::TimeZone::UTC`. -/
inductive TimeZone where
  | UTC
  deriving DecidableEq, Repr

/-- `jiff::Zoned`: a timestamp paired with a time zone. -/
structure Zoned where
  timestamp : Timestamp
  timeZone : TimeZone
  deriving DecidableEq, Repr

/-- `jiff::Timestamp::from_second`: succeeds exactly on the representable
range of epoch seconds, with a zero nanosecond component; outside the range
it reports an error naming the value.  It never clamps or wraps. -/
def Timestamp.from_second (value : Int) : Except JiffError Timestamp :=
  if jiffMinSecond ≤ value ∧ value ≤ jiffMaxSecond then
    .ok ⟨value, 0⟩
  else
    .error (.secondOutOfRange value)

/-- `jiff::Timestamp::to_zoned`. -/
def Timestamp.to_zoned (t : Timestamp) (tz : TimeZone) : Zoned := ⟨t, tz⟩

/-! ### The `ts_seconds` module (custom epoch-second deserializer) -/

namespace ts_seconds

/-- `invalid_timestamp` from the source: wraps the displayed argument in a
custom serde error `"invalid timestamp: \x7bx\x7d"`. -/
def invalid_timestamp (displayed : String) : DecErr :=
  .custom ("invalid timestamp: " ++ displayed)

/-- `SecondsTimestampVisitor::visit_i64`:
`Timestamp::from_second(value).map(|x| x.to_zoned(TimeZone::UTC))`, mapping a
jiff error to the custom invalid-timestamp error. -/
def visit_i64 (value : Int) : Except DecErr Zoned :=
  match Timestamp.from_second value with
  | .ok t => .ok (t.to_zoned .UTC)
  | .error e => .error (invalid_timestamp (jiffErrorDisplay e))

/-- `SecondsTimestampVisitor::visit_u64`: a value above `i64::MAX` is
rejected up front (the error names the value); otherwise the value is cast
to `i64` and handled exactly as in `visit_i64`. -/
def visit_u64 (value : Nat) : Except DecErr Zoned :=
  if 9223372036854775807 < value then
    .error (invalid_timestamp (toString value))
  else
    match Timestamp.from_second (value : Int) with
    | .ok t => .ok (t.to_zoned .UTC)
    | .error e => .error (invalid_timestamp (jiffErrorDisplay e))

/-- `ts_seconds::deserialize`: `d.deserialize_i64(SecondsTimestampVisitor)`.
serde_json dispatches on the runtime representation of the number: a
non-negative integer token calls `visit_u64`, a negative integer token calls
`visit_i64`, and a float or non-number token is an invalid-type error citing
the visitor expectation "a unix timestamp in seconds". -/
def deserialize : Json → Except DecErr Zoned
  | .num (.posInt n) => visit_u64 n
  | .num (.negInt i) => visit_i64 i
  | j => .error (.invalidType j.kindName "a unix timestamp in seconds")

end ts_seconds

/-! ### Derived struct deserialization (field access) -/

/-- All bindings of a key in a JSON object, in input order. -/
def bindingsOf (fields : List (String × Json)) (name : String) : List Json :=
  (fields.filter (fun p => p.1 == name)).map (fun p => p.2)

/-- The slot a derived struct deserializer ends up with for one field:
`none` when the key never occurs, the bound value when it occurs once, and a
duplicate-field error when it occurs more than once. -/
def getField (fields : List (String × Json)) (name : String) :
    Except DecErr (Option Json) :=
  match bindingsOf fields name with
  | [] => .ok none
  | [v] => .ok (some v)
  | _ => .error (.duplicateField name)

/-- A required struct field: a missing key is a missing-field error naming
the field; otherwise the bound value is decoded by the field decoder. -/
def reqField {α : Type} (fields : List (String × Json)) (name : String)
    (dec : Json → Except DecErr α) : Except DecErr α :=
  match getField fields name with
  | .ok (some v) => dec v
  | .ok none => .error (.missingField name)
  | .error e => .error e

/-- An `Option`-typed struct field: a missing key decodes to `none` (serde
treats `Option` fields as allowed to be missing), and a present value is
decoded through `Option::deserialize`, so that an explicit `null` also
decodes to `none`. -/
def optField {α : Type} (fields : List (String × Json)) (name : String)
    (dec : Json → Except DecErr α) : Except DecErr (Option α) :=
  match getField fields name with
  | .ok (some v) => decodeNullable dec v
  | .ok none => .ok none
  | .error e => .error e

/-- Whether a key of a JSON object is bound (uniquely) to a non-null value. -/
def boundNonNull (fields : List (String × Json)) (name : String) : Bool :=
  match getField fields name with
  | .ok (some v) => !v.isNull
  | _ => false

/-! ### The error envelope: `ErrorCode` and `OwmError`

`ErrorCode` is declared in the source as
`#[derive(Debug, Deserialize, Serialize)] pub enum ErrorCode \x7b
String(String), Number(i32) \x7d` — a plain derive, with no
`#[serde(untagged)]` attribute, so serde gives it the default externally
tagged representation. -/

/-- `ErrorCode`: the source enum with newtype variants `String` and
`Number(i32)`. -/
inductive ErrorCode where
  | String (s : String)
  | Number (n : Int)
  deriving DecidableEq, Repr

/-- The variant names of `ErrorCode`, as serde lists them in
unknown-variant errors. -/
def errorCodeVariants : List String := ["String", "Number"]

/-- Derived (externally tagged) `Deserialize` for `ErrorCode`:
a JSON string is read as a *variant name* with unit contents, and a
one-entry JSON map carries a variant name and its newtype contents.  A bare
JSON number, or any other JSON kind, is an invalid-type error; a string that
is not a variant name is an unknown-variant error; naming a newtype variant
with unit contents is an invalid-type error. -/
def decodeErrorCode : Json → Except DecErr ErrorCode
  | .str s =>
      if s == "String" ∨ s == "Number" then
        .error (.invalidType "unit variant" "newtype variant")
      else
        .error (.unknownVariant s errorCodeVariants)
  | .obj [(k, v)] =>
      if k == "String" then (decodeString v).map ErrorCode.String
      else if k == "Number" then (decodeI32 v).map ErrorCode.Number
      else .error (.unknownVariant k errorCodeVariants)
  | .obj _ => .error (.custom "expected a map with a single variant key")
  | j => .error (.invalidType j.kindName "enum ErrorCode")

/-- Derived (externally tagged) `Serialize` for `ErrorCode`: each variant
serializes as a one-entry map from the variant name to its contents (an
`i32` serializes as a bare integer number token). -/
def encodeErrorCode : ErrorCode → Json
  | .String s => .obj [("String", .str s)]
  | .Number n =>
      .obj [("Number", .num (if 0 ≤ n then .posInt n.toNat else .negInt n))]

/-- `OwmError`: `code` (renamed to the JSON key `cod`) and `message`. -/
structure OwmError where
  code : ErrorCode
  message : String
  deriving DecidableEq, Repr

/-- Derived `Deserialize` for `OwmError`: required fields `cod`
(an `ErrorCode`) and `message` (a string). -/
def decodeOwmError : Json → Except DecErr OwmError
  | .obj fields => do
      let code ← reqField fields "cod" decodeErrorCode
      let message ← reqField fields "message" decodeString
      return OwmError.mk code message
  | j => .error (.invalidType j.kindName "struct OwmError")

/-- Derived `Serialize` for `OwmError`: a two-field map with keys `cod` and
`message`, in declaration order. -/
def encodeOwmError (e : OwmError) : Json :=
  .obj [("cod", encodeErrorCode e.code), ("message", .str e.message)]

/-- `impl fmt::Display for ErrorCode`: the `String` payload renders
verbatim, the `Number` payload renders in decimal. -/
def displayErrorCode : ErrorCode → String
  | .String s => s
  | .Number n => toString n

/-- `impl fmt::Display for OwmError`:
`write!(f, "OWM error \x7b\x7d: \x7b\x7d", self.code, self.message)`. -/
def displayOwmError (e : OwmError) : String :=
  "OWM error " ++ displayErrorCode e.code ++ ": " ++ e.message

/-! ### The weather records -/

/-- A Rust `f64` field value, carried as the parsed JSON number token (see
the note on `decodeF64`). -/
abbrev F64 := JsonNumber

/-- `Main`: the closed 15-member enumeration of weather-condition groups,
all unit variants, derived `Deserialize` (externally tagged). -/
inductive Main where
  | Thunderstorm | Drizzle | Rain | Snow | Mist | Smoke | Haze | Dust
  | Fog | Sand | Ash | Squall | Tornado | Clear | Clouds
  deriving DecidableEq, Repr

/-- The variant names of `Main` in declaration order, as serde lists them in
unknown-variant errors. -/
def mainVariants : List String :=
  ["Thunderstorm", "Drizzle", "Rain", "Snow", "Mist", "Smoke", "Haze",
   "Dust", "Fog", "Sand", "Ash", "Squall", "Tornado", "Clear", "Clouds"]

/-- Exact, case-sensitive match of a string against the variant names of
`Main`, as generated by the serde derive. -/
def mainFromString (s : String) : Option Main :=
  if s == "Thunderstorm" then some .Thunderstorm
  else if s == "Drizzle" then some .Drizzle
  else if s == "Rain" then some .Rain
  else if s == "Snow" then some .Snow
  else if s == "Mist" then some .Mist
  else if s == "Smoke" then some .Smoke
  else if s == "Haze" then some .Haze
  else if s == "Dust" then some .Dust
  else if s == "Fog" then some .Fog
  else if s == "Sand" then some .Sand
  else if s == "Ash" then some .Ash
  else if s == "Squall" then some .Squall
  else if s == "Tornado" then some .Tornado
  else if s == "Clear" then some .Clear
  else if s == "Clouds" then some .Clouds
  else none

/-- Derived (externally tagged) `Deserialize` for `Main`: a JSON string is
matched exactly against the variant names (all variants are unit variants);
an unmatched string is an unknown-variant error carrying the string.  The
map form carries a variant name with unit (`null`) contents. -/
def decodeMain : Json → Except DecErr Main
  | .str s =>
      match mainFromString s with
      | some m => .ok m
      | none => .error (.unknownVariant s mainVariants)
  | .obj [(k, v)] =>
      match mainFromString k with
      | some m => if v.isNull then .ok m
                  else .error (.invalidType v.kindName "unit")
      | none => .error (.unknownVariant k mainVariants)
  | .obj _ => .error (.custom "expected a map with a single variant key")
  | j => .error (.invalidType j.kindName "enum Main")

/-- `WeatherElement`: condition id, group, free-text description, icon id. -/
structure WeatherElement where
  id : Int
  main : Main
  description : String
  icon : String
  deriving DecidableEq, Repr

/-- Derived `Deserialize` for `WeatherElement` (all fields required). -/
def decodeWeatherElement : Json → Except DecErr WeatherElement
  | .obj fields => do
      let id ← reqField fields "id" decodeI64
      let main ← reqField fields "main" decodeMain
      let description ← reqField fields "description" decodeString
      let icon ← reqField fields "icon" decodeString
      return WeatherElement.mk id main description icon
  | j => .error (.invalidType j.kindName "struct WeatherElement")

/-- `Precipitation`: a single `f64` field renamed to the JSON key `1h`. -/
structure Precipitation where
  one_hour : F64
  deriving DecidableEq, Repr

/-- Derived `Deserialize` for `Precipitation` (key `1h` required). -/
def decodePrecipitation : Json → Except DecErr Precipitation
  | .obj fields => do
      let one_hour ← reqField fields "1h" decodeF64
      return Precipitation.mk one_hour
  | j => .error (.invalidType j.kindName "struct Precipitation")

/-- `Current`: the current-conditions record. -/
structure Current where
  dt : Zoned
  sunrise : Zoned
  sunset : Zoned
  temp : F64
  feels_like : F64
  pressure : Nat
  humidity : Nat
  dew_point : F64
  clouds : Nat
  uvi : F64
  visibility : Option Nat
  wind_speed : F64
  wind_gust : Option F64
  wind_deg : Nat
  rain : Option Precipitation
  snow : Option Precipitation
  weather : List WeatherElement
  deriving DecidableEq, Repr

/-- Derived `Deserialize` for `Current`: timestamps via `ts_seconds`,
`pressure`/`wind_deg` as `u16`, `humidity`/`clouds` as `u8`, `visibility` as
`Option<u16>`, `wind_gust` as `Option<f64>`, `rain`/`snow` as
`Option<Precipitation>`, `weather` as `Vec<WeatherElement>`; every
non-`Option` field is required. -/
def decodeCurrent : Json → Except DecErr Current
  | .obj fields => do
      let dt ← reqField fields "dt" ts_seconds.deserialize
      let sunrise ← reqField fields "sunrise" ts_seconds.deserialize
      let sunset ← reqField fields "sunset" ts_seconds.deserialize
      let temp ← reqField fields "temp" decodeF64
      let feels_like ← reqField fields "feels_like" decodeF64
      let pressure ← reqField fields "pressure" decodeU16
      let humidity ← reqField fields "humidity" decodeU8
      let dew_point ← reqField fields "dew_point" decodeF64
      let clouds ← reqField fields "clouds" decodeU8
      let uvi ← reqField fields "uvi" decodeF64
      let visibility ← optField fields "visibility" decodeU16
      let wind_speed ← reqField fields "wind_speed" decodeF64
      let wind_gust ← optField fields "wind_gust" decodeF64
      let wind_deg ← reqField fields "wind_deg" decodeU16
      let rain ← optField fields "rain" decodePrecipitation
      let snow ← optField fields "snow" decodePrecipitation
      let weather ← reqField fields "weather" (decodeVec decodeWeatherElement)
      return Current.mk dt sunrise sunset temp feels_like pressure humidity
        dew_point clouds uvi visibility wind_speed wind_gust wind_deg rain
        snow weather
  | j => .error (.invalidType j.kindName "struct Current")

/-- `Minutely`: a minute-forecast entry. -/
structure Minutely where
  dt : Zoned
  precipitation : F64
  deriving DecidableEq, Repr

/-- Derived `Deserialize` for `Minutely` (both fields required). -/
def decodeMinutely : Json → Except DecErr Minutely
  | .obj fields => do
      let dt ← reqField fields "dt" ts_seconds.deserialize
      let precipitation ← reqField fields "precipitation" decodeF64
      return Minutely.mk dt precipitation
  | j => .error (.invalidType j.kindName "struct Minutely")

/-- `Hourly`: an hourly-forecast entry. -/
structure Hourly where
  dt : Zoned
  temp : F64
  feels_like : F64
  pressure : Nat
  humidity : Nat
  dew_point : F64
  uvi : F64
  clouds : Nat
  visibility : Option Nat
  wind_speed : F64
  wind_gust : Option F64
  wind_deg : Nat
  pop : F64
  rain : Option Precipitation
  snow : Option Precipitation
  weather : List WeatherElement
  deriving DecidableEq, Repr

/-- Derived `Deserialize` for `Hourly` (same field conventions as
`Current`, plus the required `pop`, without sunrise/sunset). -/
def decodeHourly : Json → Except DecErr Hourly
  | .obj fields => do
      let dt ← reqField fields "dt" ts_seconds.deserialize
      let temp ← reqField fields "temp" decodeF64
      let feels_like ← reqField fields "feels_like" decodeF64
      let pressure ← reqField fields "pressure" decodeU16
      let humidity ← reqField fields "humidity" decodeU8
      let dew_point ← reqField fields "dew_point" decodeF64
      let uvi ← reqField fields "uvi" decodeF64
      let clouds ← reqField fields "clouds" decodeU8
      let visibility ← optField fields "visibility" decodeU16
      let wind_speed ← reqField fields "wind_speed" decodeF64
      let wind_gust ← optField fields "wind_gust" decodeF64
      let wind_deg ← reqField fields "wind_deg" decodeU16
      let pop ← reqField fields "pop" decodeF64
      let rain ← optField fields "rain" decodePrecipitation
      let snow ← optField fields "snow" decodePrecipitation
      let weather ← reqField fields "weather" (decodeVec decodeWeatherElement)
      return Hourly.mk dt temp feels_like pressure humidity dew_point uvi
        clouds visibility wind_speed wind_gust wind_deg pop rain snow weather
  | j => .error (.invalidType j.kindName "struct Hourly")

/-- `DailyTemperature`: morning/day/evening/night/min/max, all required. -/
structure DailyTemperature where
  morn : F64
  day : F64
  eve : F64
  night : F64
  min : F64
  max : F64
  deriving DecidableEq, Repr

/-- Derived `Deserialize` for `DailyTemperature`. -/
def decodeDailyTemperature : Json → Except DecErr DailyTemperature
  | .obj fields => do
      let morn ← reqField fields "morn" decodeF64
      let day ← reqField fields "day" decodeF64
      let eve ← reqField fields "eve" decodeF64
      let night ← reqField fields "night" decodeF64
      let mn ← reqField fields "min" decodeF64
      let mx ← reqField fields "max" decodeF64
      return DailyTemperature.mk morn day eve night mn mx
  | j => .error (.invalidType j.kindName "struct DailyTemperature")

/-- `DailyFeelsLikeTemperature`: morning/day/evening/night, all required. -/
structure DailyFeelsLikeTemperature where
  morn : F64
  day : F64
  eve : F64
  night : F64
  deriving DecidableEq, Repr

/-- Derived `Deserialize` for `DailyFeelsLikeTemperature`. -/
def decodeDailyFeelsLike : Json → Except DecErr DailyFeelsLikeTemperature
  | .obj fields => do
      let morn ← reqField fields "morn" decodeF64
      let day ← reqField fields "day" decodeF64
      let eve ← reqField fields "eve" decodeF64
      let night ← reqField fields "night" decodeF64
      return DailyFeelsLikeTemperature.mk morn day eve night
  | j => .error (.invalidType j.kindName "struct DailyFeelsLikeTemperature")

/-- `Daily`: a daily-forecast entry; note `rain`/`snow` are flat optional
`f64` totals here, unlike the nested `Precipitation` of `Current`/`Hourly`. -/
structure Daily where
  dt : Zoned
  sunrise : Zoned
  sunset : Zoned
  moonrise : Zoned
  moonset : Zoned
  moon_phase : F64
  temp : DailyTemperature
  feels_like : DailyFeelsLikeTemperature
  pressure : Nat
  humidity : Nat
  dew_point : F64
  wind_speed : F64
  wind_gust : Option F64
  wind_deg : Nat
  clouds : Nat
  uvi : F64
  pop : F64
  rain : Option F64
  snow : Option F64
  weather : List WeatherElement
  deriving DecidableEq, Repr

/-- Derived `Deserialize` for `Daily`. -/
def decodeDaily : Json → Except DecErr Daily
  | .obj fields => do
      let dt ← reqField fields "dt" ts_seconds.deserialize
      let sunrise ← reqField fields "sunrise" ts_seconds.deserialize
      let sunset ← reqField fields "sunset" ts_seconds.deserialize
      let moonrise ← reqField fields "moonrise" ts_seconds.deserialize
      let moonset ← reqField fields "moonset" ts_seconds.deserialize
      let moon_phase ← reqField fields "moon_phase" decodeF64
      let temp ← reqField fields "temp" decodeDailyTemperature
      let feels_like ← reqField fields "feels_like" decodeDailyFeelsLike
      let pressure ← reqField fields "pressure" decodeU16
      let humidity ← reqField fields "humidity" decodeU8
      let dew_point ← reqField fields "dew_point" decodeF64
      let wind_speed ← reqField fields "wind_speed" decodeF64
      let wind_gust ← optField fields "wind_gust" decodeF64
      let wind_deg ← reqField fields "wind_deg" decodeU16
      let clouds ← reqField fields "clouds" decodeU8
      let uvi ← reqField fields "uvi" decodeF64
      let pop ← reqField fields "pop" decodeF64
      let rain ← optField fields "rain" decodeF64
      let snow ← optField fields "snow" decodeF64
      let weather ← reqField fields "weather" (decodeVec decodeWeatherElement)
      return Daily.mk dt sunrise sunset moonrise moonset moon_phase temp
        feels_like pressure humidity dew_point wind_speed wind_gust wind_deg
        clouds uvi pop rain snow weather
  | j => .error (.invalidType j.kindName "struct Daily")

/-- `Alert`: a national weather alert, all fields required. -/
structure Alert where
  sender_name : String
  event : String
  start : Zoned
  «end» : Zoned
  description : String
  tags : List String
  deriving DecidableEq, Repr

/-- Derived `Deserialize` for `Alert`. -/
def decodeAlert : Json → Except DecErr Alert
  | .obj fields => do
      let sender_name ← reqField fields "sender_name" decodeString
      let event ← reqField fields "event" decodeString
      let start ← reqField fields "start" ts_seconds.deserialize
      let stop ← reqField fields "end" ts_seconds.deserialize
      let description ← reqField fields "description" decodeString
      let tags ← reqField fields "tags" (decodeVec decodeString)
      return Alert.mk sender_name event start stop description tags
  | j => .error (.invalidType j.kindName "struct Alert")

/-- `Weather`: the top-level success document; every section is optional. -/
structure Weather where
  current : Option Current
  minutely : Option (List Minutely)
  hourly : Option (List Hourly)
  daily : Option (List Daily)
  alerts : Option (List Alert)
  deriving DecidableEq, Repr

/-- Derived `Deserialize` for `Weather`: all five sections are `Option`
fields, so a missing key or an explicit `null` decodes to `none`. -/
def decodeWeather : Json → Except DecErr Weather
  | .obj fields => do
      let current ← optField fields "current" decodeCurrent
      let minutely ← optField fields "minutely" (decodeVec decodeMinutely)
      let hourly ← optField fields "hourly" (decodeVec decodeHourly)
      let daily ← optField fields "daily" (decodeVec decodeDaily)
      let alerts ← optField fields "alerts" (decodeVec decodeAlert)
      return Weather.mk current minutely hourly daily alerts
  | j => .error (.invalidType j.kindName "struct Weather")

/-! ### Proleptic Gregorian calendar arithmetic

Used to relate decoded epoch-second instants to civil UTC datetimes. -/

/-- Days from the Unix epoch (1970-01-01) to the given proleptic Gregorian
calendar date (Hinnant's days-from-civil algorithm). -/
def daysFromCivil (y : Int) (m d : Nat) : Int :=
  let yr : Int := if m ≤ 2 then y - 1 else y
  let era : Int := Int.fdiv yr 400
  let yoe : Nat := (yr - era * 400).toNat
  let mp : Nat := (m + 9) % 12
  let doy : Nat := (153 * mp + 2) / 5 + (d - 1)
  let doe : Nat := yoe * 365 + yoe / 4 - yoe / 100 + doy
  era * 146097 + (doe : Int) - 719468

/-- The epoch second of a civil UTC datetime. -/
def utcEpochSecond (y : Int) (m d hh mi ss : Nat) : Int :=
  daysFromCivil y m d * 86400 + ((hh * 3600 + mi * 60 + ss : Nat) : Int)

/-- Consistency of the jiff bounds with the calendar model: the minimum
accepted epoch second is the instant -9999-01-02T01:59:59Z. -/
theorem jiffMinSecond_civil :
    jiffMinSecond = utcEpochSecond (-9999) 1 2 1 59 59 := by decide

/-- Consistency of the jiff bounds with the calendar model: the maximum
accepted epoch second is the instant 9999-12-30T22:00:00Z. -/
theorem jiffMaxSecond_civil :
    jiffMaxSecond = utcEpochSecond 9999 12 30 22 0 0 := by decide

/-! ### Helper lemmas -/

theorem bind_ok_elim {ε α β : Type} {x : Except ε α} {f : α → Except ε β}
    {b : β} (h : x >>= f = .ok b) : ∃ a, x = .ok a ∧ f a = .ok b := by
  cases x with
  | error e => simp [Bind.bind, Except.bind] at h
  | ok a => exact ⟨a, rfl, h⟩

theorem pure_eq_ok {ε α : Type} (a : α) :
    (pure a : Except ε α) = .ok a := rfl

theorem bindingsOf_eq_nil {fields : List (String × Json)} {name : String}
    (h : name ∉ fields.map Prod.fst) : bindingsOf fields name = [] := by
  unfold bindingsOf
  rw [List.filter_eq_nil_iff.mpr, List.map_nil]
  intro p hp hbeq
  exact h (List.mem_map.mpr ⟨p, hp, (eq_of_beq hbeq).symm ▸ rfl⟩)

theorem getField_of_not_mem {fields : List (String × Json)} {name : String}
    (h : name ∉ fields.map Prod.fst) : getField fields name = .ok none := by
  unfold getField
  rw [bindingsOf_eq_nil h]

theorem reqField_of_not_mem {α : Type} {fields : List (String × Json)}
    {name : String} {dec : Json → Except DecErr α}
    (h : name ∉ fields.map Prod.fst) :
    reqField fields name dec = .error (.missingField name) := by
  unfold reqField
  rw [getField_of_not_mem h]

theorem optField_of_not_mem {α : Type} {fields : List (String × Json)}
    {name : String} {dec : Json → Except DecErr α}
    (h : name ∉ fields.map Prod.fst) :
    optField fields name dec = .ok none := by
  unfold optField
  rw [getField_of_not_mem h]

theorem mem_bindingsOf {fields : List (String × Json)} {name : String}
    {v : Json} (h : (name, v) ∈ fields) : v ∈ bindingsOf fields name := by
  unfold bindingsOf
  exact List.mem_map.mpr ⟨(name, v), List.mem_filter.mpr ⟨h, by simp⟩, rfl⟩

theorem reqField_not_ok_of_mem_bad {α : Type} {fields : List (String × Json)}
    {name : String} {v : Json} {dec : Json → Except DecErr α}
    (hmem : (name, v) ∈ fields) (hbad : ∀ x : α, dec v ≠ .ok x) :
    ∀ x : α, reqField fields name dec ≠ .ok x := by
  intro x hx
  have hv := mem_bindingsOf hmem
  unfold reqField getField at hx
  rcases hlist : bindingsOf fields name with _ | ⟨w, _ | ⟨w2, rest⟩⟩ <;>
    rw [hlist] at hx hv
  · exact absurd hv (List.not_mem_nil v)
  · have hvw : v = w := by simpa using hv
    exact hbad x (hvw ▸ hx)
  · exact Except.noConfusion hx

theorem decodeNullable_of_not_null {α : Type} {dec : Json → Except DecErr α}
    {v : Json} (h : v.isNull = false) :
    decodeNullable dec v = (dec v).map some := by
  cases v <;> first
    | rfl
    | exact absurd h (by simp [Json.isNull])

theorem optField_not_ok_of_mem_bad {α : Type} {fields : List (String × Json)}
    {name : String} {v : Json} {dec : Json → Except DecErr α}
    (hmem : (name, v) ∈ fields) (hnn : v.isNull = false)
    (hbad : ∀ x : α, dec v ≠ .ok x) :
    ∀ o : Option α, optField fields name dec ≠ .ok o := by
  intro o hx
  have hv := mem_bindingsOf hmem
  unfold optField getField at hx
  rcases hlist : bindingsOf fields name with _ | ⟨w, _ | ⟨w2, rest⟩⟩ <;>
    rw [hlist] at hx hv
  · exact absurd hv (List.not_mem_nil v)
  · have hvw : v = w := by simpa using hv
    subst hvw
    have hx2 : decodeNullable dec v = .ok o := hx
    rw [decodeNullable_of_not_null hnn] at hx2
    cases hdec : dec v with
    | error e => rw [hdec] at hx2; exact Except.noConfusion hx2
    | ok a => exact hbad a hdec
  · exact Except.noConfusion hx

/-! ### Inversion of the record decoders: a successful decode determines
every field slot. -/

theorem decodeWeatherElement_ok {fields : List (String × Json)}
    {r : WeatherElement} (h : decodeWeatherElement (.obj fields) = .ok r) :
    reqField fields "id" decodeI64 = .ok r.id ∧
    reqField fields "main" decodeMain = .ok r.main ∧
    reqField fields "description" decodeString = .ok r.description ∧
    reqField fields "icon" decodeString = .ok r.icon := by
  simp only [decodeWeatherElement] at h
  obtain ⟨a1, h1, h⟩ := bind_ok_elim h
  obtain ⟨a2, h2, h⟩ := bind_ok_elim h
  obtain ⟨a3, h3, h⟩ := bind_ok_elim h
  obtain ⟨a4, h4, h⟩ := bind_ok_elim h
  rw [pure_eq_ok] at h
  injection h with h
  subst h
  exact ⟨h1, h2, h3, h4⟩

theorem decodeCurrent_ok {fields : List (String × Json)} {r : Current}
    (h : decodeCurrent (.obj fields) = .ok r) :
    reqField fields "dt" ts_seconds.deserialize = .ok r.dt ∧
    reqField fields "sunrise" ts_seconds.deserialize = .ok r.sunrise ∧
    reqField fields "sunset" ts_seconds.deserialize = .ok r.sunset ∧
    reqField fields "temp" decodeF64 = .ok r.temp ∧
    reqField fields "feels_like" decodeF64 = .ok r.feels_like ∧
    reqField fields "pressure" decodeU16 = .ok r.pressure ∧
    reqField fields "humidity" decodeU8 = .ok r.humidity ∧
    reqField fields "dew_point" decodeF64 = .ok r.dew_point ∧
    reqField fields "clouds" decodeU8 = .ok r.clouds ∧
    reqField fields "uvi" decodeF64 = .ok r.uvi ∧
    optField fields "visibility" decodeU16 = .ok r.visibility ∧
    reqField fields "wind_speed" decodeF64 = .ok r.wind_speed ∧
    optField fields "wind_gust" decodeF64 = .ok r.wind_gust ∧
    reqField fields "wind_deg" decodeU16 = .ok r.wind_deg ∧
    optField fields "rain" decodePrecipitation = .ok r.rain ∧
    optField fields "snow" decodePrecipitation = .ok r.snow ∧
    reqField fields "weather" (decodeVec decodeWeatherElement) =
      .ok r.weather := by
  simp only [decodeCurrent] at h
  obtain ⟨a1, h1, h⟩ := bind_ok_elim h
  obtain ⟨a2, h2, h⟩ := bind_ok_elim h
  obtain ⟨a3, h3, h⟩ := bind_ok_elim h
  obtain ⟨a4, h4, h⟩ := bind_ok_elim h
  obtain ⟨a5, h5, h⟩ := bind_ok_elim h
  obtain ⟨a6, h6, h⟩ := bind_ok_elim h
  obtain ⟨a7, h7, h⟩ := bind_ok_elim h
  obtain ⟨a8, h8, h⟩ := bind_ok_elim h
  obtain ⟨a9, h9, h⟩ := bind_ok_elim h
  obtain ⟨a10, h10, h⟩ := bind_ok_elim h
  obtain ⟨a11, h11, h⟩ := bind_ok_elim h
  obtain ⟨a12, h12, h⟩ := bind_ok_elim h
  obtain ⟨a13, h13, h⟩ := bind_ok_elim h
  obtain ⟨a14, h14, h⟩ := bind_ok_elim h
  obtain ⟨a15, h15, h⟩ := bind_ok_elim h
  obtain ⟨a16, h16, h⟩ := bind_ok_elim h
  obtain ⟨a17, h17, h⟩ := bind_ok_elim h
  rw [pure_eq_ok] at h
  injection h with h
  subst h
  exact ⟨h1, h2, h3, h4, h5, h6, h7, h8, h9, h10, h11, h12, h13, h14, h15,
    h16, h17⟩

theorem decodeHourly_ok {fields : List (String × Json)} {r : Hourly}
    (h : decodeHourly (.obj fields) = .ok r) :
    reqField fields "dt" ts_seconds.deserialize = .ok r.dt ∧
    reqField fields "temp" decodeF64 = .ok r.temp ∧
    reqField fields "feels_like" decodeF64 = .ok r.feels_like ∧
    reqField fields "pressure" decodeU16 = .ok r.pressure ∧
    reqField fields "humidity" decodeU8 = .ok r.humidity ∧
    reqField fields "dew_point" decodeF64 = .ok r.dew_point ∧
    reqField fields "uvi" decodeF64 = .ok r.uvi ∧
    reqField fields "clouds" decodeU8 = .ok r.clouds ∧
    optField fields "visibility" decodeU16 = .ok r.visibility ∧
    reqField fields "wind_speed" decodeF64 = .ok r.wind_speed ∧
    optField fields "wind_gust" decodeF64 = .ok r.wind_gust ∧
    reqField fields "wind_deg" decodeU16 = .ok r.wind_deg ∧
    reqField fields "pop" decodeF64 = .ok r.pop ∧
    optField fields "rain" decodePrecipitation = .ok r.rain ∧
    optField fields "snow" decodePrecipitation = .ok r.snow ∧
    reqField fields "weather" (decodeVec decodeWeatherElement) =
      .ok r.weather := by
  simp only [decodeHourly] at h
  obtain ⟨a1, h1, h⟩ := bind_ok_elim h
  obtain ⟨a2, h2, h⟩ := bind_ok_elim h
  obtain ⟨a3, h3, h⟩ := bind_ok_elim h
  obtain ⟨a4, h4, h⟩ := bind_ok_elim h
  obtain ⟨a5, h5, h⟩ := bind_ok_elim h
  obtain ⟨a6, h6, h⟩ := bind_ok_elim h
  obtain ⟨a7, h7, h⟩ := bind_ok_elim h
  obtain ⟨a8, h8, h⟩ := bind_ok_elim h
  obtain ⟨a9, h9, h⟩ := bind_ok_elim h
  obtain ⟨a10, h10, h⟩ := bind_ok_elim h
  obtain ⟨a11, h11, h⟩ := bind_ok_elim h
  obtain ⟨a12, h12, h⟩ := bind_ok_elim h
  obtain ⟨a13, h13, h⟩ := bind_ok_elim h
  obtain ⟨a14, h14, h⟩ := bind_ok_elim h
  obtain ⟨a15, h15, h⟩ := bind_ok_elim h
  obtain ⟨a16, h16, h⟩ := bind_ok_elim h
  rw [pure_eq_ok] at h
  injection h with h
  subst h
  exact ⟨h1, h2, h3, h4, h5, h6, h7, h8, h9, h10, h11, h12, h13, h14, h15,
    h16⟩

theorem decodeDaily_ok {fields : List (String × Json)} {r : Daily}
    (h : decodeDaily (.obj fields) = .ok r) :
    reqField fields "dt" ts_seconds.deserialize = .ok r.dt ∧
    reqField fields "sunrise" ts_seconds.deserialize = .ok r.sunrise ∧
    reqField fields "sunset" ts_seconds.deserialize = .ok r.sunset ∧
    reqField fields "moonrise" ts_seconds.deserialize = .ok r.moonrise ∧
    reqField fields "moonset" ts_seconds.deserialize = .ok r.moonset ∧
    reqField fields "moon_phase" decodeF64 = .ok r.moon_phase ∧
    reqField fields "temp" decodeDailyTemperature = .ok r.temp ∧
    reqField fields "feels_like" decodeDailyFeelsLike = .ok r.feels_like ∧
    reqField fields "pressure" decodeU16 = .ok r.pressure ∧
    reqField fields "humidity" decodeU8 = .ok r.humidity ∧
    reqField fields "dew_point" decodeF64 = .ok r.dew_point ∧
    reqField fields "wind_speed" decodeF64 = .ok r.wind_speed ∧
    optField fields "wind_gust" decodeF64 = .ok r.wind_gust ∧
    reqField fields "wind_deg" decodeU16 = .ok r.wind_deg ∧
    reqField fields "clouds" decodeU8 = .ok r.clouds ∧
    reqField fields "uvi" decodeF64 = .ok r.uvi ∧
    reqField fields "pop" decodeF64 = .ok r.pop ∧
    optField fields "rain" decodeF64 = .ok r.rain ∧
    optField fields "snow" decodeF64 = .ok r.snow ∧
    reqField fields "weather" (decodeVec decodeWeatherElement) =
      .ok r.weather := by
  simp only [decodeDaily] at h
  obtain ⟨a1, h1, h⟩ := bind_ok_elim h
  obtain ⟨a2, h2, h⟩ := bind_ok_elim h
  obtain ⟨a3, h3, h⟩ := bind_ok_elim h
  obtain ⟨a4, h4, h⟩ := bind_ok_elim h
  obtain ⟨a5, h5, h⟩ := bind_ok_elim h
  obtain ⟨a6, h6, h⟩ := bind_ok_elim h
  obtain ⟨a7, h7, h⟩ := bind_ok_elim h
  obtain ⟨a8, h8, h⟩ := bind_ok_elim h
  obtain ⟨a9, h9, h⟩ := bind_ok_elim h
  obtain ⟨a10, h10, h⟩ := bind_ok_elim h
  obtain ⟨a11, h11, h⟩ := bind_ok_elim h
  obtain ⟨a12, h12, h⟩ := bind_ok_elim h
  obtain ⟨a13, h13, h⟩ := bind_ok_elim h
  obtain ⟨a14, h14, h⟩ := bind_ok_elim h
  obtain ⟨a15, h15, h⟩ := bind_ok_elim h
  obtain ⟨a16, h16, h⟩ := bind_ok_elim h
  obtain ⟨a17, h17, h⟩ := bind_ok_elim h
  obtain ⟨a18, h18, h⟩ := bind_ok_elim h
  obtain ⟨a19, h19, h⟩ := bind_ok_elim h
  obtain ⟨a20, h20, h⟩ := bind_ok_elim h
  rw [pure_eq_ok] at h
  injection h with h
  subst h
  exact ⟨h1, h2, h3, h4, h5, h6, h7, h8, h9, h10, h11, h12, h13, h14, h15,
    h16, h17, h18, h19, h20⟩

theorem decodeMinutely_ok {fields : List (String × Json)} {r : Minutely}
    (h : decodeMinutely (.obj fields) = .ok r) :
    reqField fields "dt" ts_seconds.deserialize = .ok r.dt ∧
    reqField fields "precipitation" decodeF64 = .ok r.precipitation := by
  simp only [decodeMinutely] at h
  obtain ⟨a1, h1, h⟩ := bind_ok_elim h
  obtain ⟨a2, h2, h⟩ := bind_ok_elim h
  rw [pure_eq_ok] at h
  injection h with h
  subst h
  exact ⟨h1, h2⟩

theorem decodeAlert_ok {fields : List (String × Json)} {r : Alert}
    (h : decodeAlert (.obj fields) = .ok r) :
    reqField fields "sender_name" decodeString = .ok r.sender_name ∧
    reqField fields "event" decodeString = .ok r.event ∧
    reqField fields "start" ts_seconds.deserialize = .ok r.start ∧
    reqField fields "end" ts_seconds.deserialize = .ok r.«end» ∧
    reqField fields "description" decodeString = .ok r.description ∧
    reqField fields "tags" (decodeVec decodeString) = .ok r.tags := by
  simp only [decodeAlert] at h
  obtain ⟨a1, h1, h⟩ := bind_ok_elim h
  obtain ⟨a2, h2, h⟩ := bind_ok_elim h
  obtain ⟨a3, h3, h⟩ := bind_ok_elim h
  obtain ⟨a4, h4, h⟩ := bind_ok_elim h
  obtain ⟨a5, h5, h⟩ := bind_ok_elim h
  obtain ⟨a6, h6, h⟩ := bind_ok_elim h
  rw [pure_eq_ok] at h
  injection h with h
  subst h
  exact ⟨h1, h2, h3, h4, h5, h6⟩

theorem decodePrecipitation_ok {fields : List (String × Json)}
    {r : Precipitation} (h : decodePrecipitation (.obj fields) = .ok r) :
    reqField fields "1h" decodeF64 = .ok r.one_hour := by
  simp only [decodePrecipitation] at h
  obtain ⟨a1, h1, h⟩ := bind_ok_elim h
  rw [pure_eq_ok] at h
  injection h with h
  subst h
  exact h1

theorem decodeDailyTemperature_ok {fields : List (String × Json)}
    {r : DailyTemperature}
    (h : decodeDailyTemperature (.obj fields) = .ok r) :
    reqField fields "morn" decodeF64 = .ok r.morn ∧
    reqField fields "day" decodeF64 = .ok r.day ∧
    reqField fields "eve" decodeF64 = .ok r.eve ∧
    reqField fields "night" decodeF64 = .ok r.night ∧
    reqField fields "min" decodeF64 = .ok r.min ∧
    reqField fields "max" decodeF64 = .ok r.max := by
  simp only [decodeDailyTemperature] at h
  obtain ⟨a1, h1, h⟩ := bind_ok_elim h
  obtain ⟨a2, h2, h⟩ := bind_ok_elim h
  obtain ⟨a3, h3, h⟩ := bind_ok_elim h
  obtain ⟨a4, h4, h⟩ := bind_ok_elim h
  obtain ⟨a5, h5, h⟩ := bind_ok_elim h
  obtain ⟨a6, h6, h⟩ := bind_ok_elim h
  rw [pure_eq_ok] at h
  injection h with h
  subst h
  exact ⟨h1, h2, h3, h4, h5, h6⟩

theorem decodeDailyFeelsLike_ok {fields : List (String × Json)}
    {r : DailyFeelsLikeTemperature}
    (h : decodeDailyFeelsLike (.obj fields) = .ok r) :
    reqField fields "morn" decodeF64 = .ok r.morn ∧
    reqField fields "day" decodeF64 = .ok r.day ∧
    reqField fields "eve" decodeF64 = .ok r.eve ∧
    reqField fields "night" decodeF64 = .ok r.night := by
  simp only [decodeDailyFeelsLike] at h
  obtain ⟨a1, h1, h⟩ := bind_ok_elim h
  obtain ⟨a2, h2, h⟩ := bind_ok_elim h
  obtain ⟨a3, h3, h⟩ := bind_ok_elim h
  obtain ⟨a4, h4, h⟩ := bind_ok_elim h
  rw [pure_eq_ok] at h
  injection h with h
  subst h
  exact ⟨h1, h2, h3, h4⟩

theorem decodeOwmError_ok {fields : List (String × Json)} {r : OwmError}
    (h : decodeOwmError (.obj fields) = .ok r) :
    reqField fields "cod" decodeErrorCode = .ok r.code ∧
    reqField fields "message" decodeString = .ok r.message := by
  simp only [decodeOwmError] at h
  obtain ⟨a1, h1, h⟩ := bind_ok_elim h
  obtain ⟨a2, h2, h⟩ := bind_ok_elim h
  rw [pure_eq_ok] at h
  injection h with h
  subst h
  exact ⟨h1, h2⟩

theorem decodeWeather_ok {fields : List (String × Json)} {r : Weather}
    (h : decodeWeather (.obj fields) = .ok r) :
    optField fields "current" decodeCurrent = .ok r.current ∧
    optField fields "minutely" (decodeVec decodeMinutely) = .ok r.minutely ∧
    optField fields "hourly" (decodeVec decodeHourly) = .ok r.hourly ∧
    optField fields "daily" (decodeVec decodeDaily) = .ok r.daily ∧
    optField fields "alerts" (decodeVec decodeAlert) = .ok r.alerts := by
  simp only [decodeWeather] at h
  obtain ⟨a1, h1, h⟩ := bind_ok_elim h
  obtain ⟨a2, h2, h⟩ := bind_ok_elim h
  obtain ⟨a3, h3, h⟩ := bind_ok_elim h
  obtain ⟨a4, h4, h⟩ := bind_ok_elim h
  obtain ⟨a5, h5, h⟩ := bind_ok_elim h
  rw [pure_eq_ok] at h
  injection h with h
  subst h
  exact ⟨h1, h2, h3, h4, h5⟩

/-! ### Prepending a binding for a different key, or a `null` binding for an
absent optional key, does not change a field slot. -/

theorem bindingsOf_cons_ne {name n : String} {v : Json}
    {fs : List (String × Json)} (h : (name == n) = false) :
    bindingsOf ((name, v) :: fs) n = bindingsOf fs n := by
  simp [bindingsOf, List.filter_cons, h]

theorem reqField_cons_ne {α : Type} {name n : String} {v : Json}
    {fs : List (String × Json)} {dec : Json → Except DecErr α}
    (h : (name == n) = false) :
    reqField ((name, v) :: fs) n dec = reqField fs n dec := by
  unfold reqField getField
  rw [bindingsOf_cons_ne h]

theorem optField_cons_ne {α : Type} {name n : String} {v : Json}
    {fs : List (String × Json)} {dec : Json → Except DecErr α}
    (h : (name == n) = false) :
    optField ((name, v) :: fs) n dec = optField fs n dec := by
  unfold optField getField
  rw [bindingsOf_cons_ne h]

theorem bindingsOf_cons_self {name : String} {v : Json}
    {fs : List (String × Json)} (h : name ∉ fs.map Prod.fst) :
    bindingsOf ((name, v) :: fs) name = [v] := by
  unfold bindingsOf
  rw [List.filter_cons_of_pos (by simp)]
  rw [show fs.filter (fun p => p.1 == name) = [] from
    List.filter_eq_nil_iff.mpr (fun p hp hbeq =>
      h (List.mem_map.mpr ⟨p, hp, (eq_of_beq hbeq).symm ▸ rfl⟩))]
  rfl

theorem optField_null_cons {α : Type} {name : String}
    {fs : List (String × Json)} {dec : Json → Except DecErr α}
    (h : name ∉ fs.map Prod.fst) :
    optField ((name, Json.null) :: fs) name dec = .ok none := by
  unfold optField getField
  rw [bindingsOf_cons_self h]
  rfl

theorem optField_absent_val {α : Type} {fs : List (String × Json)}
    {name : String} {dec : Json → Except DecErr α} {o : Option α}
    (habs : name ∉ fs.map Prod.fst) (h : optField fs name dec = .ok o) :
    o = none := by
  rw [optField_of_not_mem habs] at h
  injection h with h
  exact h.symm

theorem decodeCurrent_visibility_null {fs : List (String × Json)}
    (h : "visibility" ∉ fs.map Prod.fst) :
    decodeCurrent (.obj (("visibility", Json.null) :: fs)) =
      decodeCurrent (.obj fs) := by
  simp only [decodeCurrent]
  rw [reqField_cons_ne (by decide), reqField_cons_ne (by decide),
    reqField_cons_ne (by decide), reqField_cons_ne (by decide),
    reqField_cons_ne (by decide), reqField_cons_ne (by decide),
    reqField_cons_ne (by decide), reqField_cons_ne (by decide),
    reqField_cons_ne (by decide), reqField_cons_ne (by decide),
    optField_null_cons h, reqField_cons_ne (by decide),
    optField_cons_ne (by decide), reqField_cons_ne (by decide),
    optField_cons_ne (by decide), optField_cons_ne (by decide),
    reqField_cons_ne (by decide), optField_of_not_mem h]

theorem decodeCurrent_wind_gust_null {fs : List (String × Json)}
    (h : "wind_gust" ∉ fs.map Prod.fst) :
    decodeCurrent (.obj (("wind_gust", Json.null) :: fs)) =
      decodeCurrent (.obj fs) := by
  simp only [decodeCurrent]
  rw [reqField_cons_ne (by decide), reqField_cons_ne (by decide),
    reqField_cons_ne (by decide), reqField_cons_ne (by decide),
    reqField_cons_ne (by decide), reqField_cons_ne (by decide),
    reqField_cons_ne (by decide), reqField_cons_ne (by decide),
    reqField_cons_ne (by decide), reqField_cons_ne (by decide),
    optField_cons_ne (by decide), reqField_cons_ne (by decide),
    optField_null_cons h, reqField_cons_ne (by decide),
    optField_cons_ne (by decide), optField_cons_ne (by decide),
    reqField_cons_ne (by decide), optField_of_not_mem h]

theorem decodeCurrent_rain_null {fs : List (String × Json)}
    (h : "rain" ∉ fs.map Prod.fst) :
    decodeCurrent (.obj (("rain", Json.null) :: fs)) =
      decodeCurrent (.obj fs) := by
  simp only [decodeCurrent]
  rw [reqField_cons_ne (by decide), reqField_cons_ne (by decide),
    reqField_cons_ne (by decide), reqField_cons_ne (by decide),
    reqField_cons_ne (by decide), reqField_cons_ne (by decide),
    reqField_cons_ne (by decide), reqField_cons_ne (by decide),
    reqField_cons_ne (by decide), reqField_cons_ne (by decide),
    optField_cons_ne (by decide), reqField_cons_ne (by decide),
    optField_cons_ne (by decide), reqField_cons_ne (by decide),
    optField_null_cons h, optField_cons_ne (by decide),
    reqField_cons_ne (by decide), optField_of_not_mem h]

theorem decodeCurrent_snow_null {fs : List (String × Json)}
    (h : "snow" ∉ fs.map Prod.fst) :
    decodeCurrent (.obj (("snow", Json.null) :: fs)) =
      decodeCurrent (.obj fs) := by
  simp only [decodeCurrent]
  rw [reqField_cons_ne (by decide), reqField_cons_ne (by decide),
    reqField_cons_ne (by decide), reqField_cons_ne (by decide),
    reqField_cons_ne (by decide), reqField_cons_ne (by decide),
    reqField_cons_ne (by decide), reqField_cons_ne (by decide),
    reqField_cons_ne (by decide), reqField_cons_ne (by decide),
    optField_cons_ne (by decide), reqField_cons_ne (by decide),
    optField_cons_ne (by decide), reqField_cons_ne (by decide),
    optField_cons_ne (by decide), optField_null_cons h,
    reqField_cons_ne (by decide), optField_of_not_mem h]

theorem decodeHourly_visibility_null {fs : List (String × Json)}
    (h : "visibility" ∉ fs.map Prod.fst) :
    decodeHourly (.obj (("visibility", Json.null) :: fs)) =
      decodeHourly (.obj fs) := by
  simp only [decodeHourly]
  rw [reqField_cons_ne (by decide), reqField_cons_ne (by decide),
    reqField_cons_ne (by decide), reqField_cons_ne (by decide),
    reqField_cons_ne (by decide), reqField_cons_ne (by decide),
    reqField_cons_ne (by decide), reqField_cons_ne (by decide),
    optField_null_cons h, reqField_cons_ne (by decide),
    optField_cons_ne (by decide), reqField_cons_ne (by decide),
    reqField_cons_ne (by decide), optField_cons_ne (by decide),
    optField_cons_ne (by decide), reqField_cons_ne (by decide),
    optField_of_not_mem h]

theorem decodeHourly_wind_gust_null {fs : List (String × Json)}
    (h : "wind_gust" ∉ fs.map Prod.fst) :
    decodeHourly (.obj (("wind_gust", Json.null) :: fs)) =
      decodeHourly (.obj fs) := by
  simp only [decodeHourly]
  rw [reqField_cons_ne (by decide), reqField_cons_ne (by decide),
    reqField_cons_ne (by decide), reqField_cons_ne (by decide),
    reqField_cons_ne (by decide), reqField_cons_ne (by decide),
    reqField_cons_ne (by decide), reqField_cons_ne (by decide),
    optField_cons_ne (by decide), reqField_cons_ne (by decide),
    optField_null_cons h, reqField_cons_ne (by decide),
    reqField_cons_ne (by decide), optField_cons_ne (by decide),
    optField_cons_ne (by decide), reqField_cons_ne (by decide),
    optField_of_not_mem h]

theorem decodeHourly_rain_null {fs : List (String × Json)}
    (h : "rain" ∉ fs.map Prod.fst) :
    decodeHourly (.obj (("rain", Json.null) :: fs)) =
      decodeHourly (.obj fs) := by
  simp only [decodeHourly]
  rw [reqField_cons_ne (by decide), reqField_cons_ne (by decide),
    reqField_cons_ne (by decide), reqField_cons_ne (by decide),
    reqField_cons_ne (by decide), reqField_cons_ne (by decide),
    reqField_cons_ne (by decide), reqField_cons_ne (by decide),
    optField_cons_ne (by decide), reqField_cons_ne (by decide),
    optField_cons_ne (by decide), reqField_cons_ne (by decide),
    reqField_cons_ne (by decide), optField_null_cons h,
    optField_cons_ne (by decide), reqField_cons_ne (by decide),
    optField_of_not_mem h]

theorem decodeHourly_snow_null {fs : List (String × Json)}
    (h : "snow" ∉ fs.map Prod.fst) :
    decodeHourly (.obj (("snow", Json.null) :: fs)) =
      decodeHourly (.obj fs) := by
  simp only [decodeHourly]
  rw [reqField_cons_ne (by decide), reqField_cons_ne (by decide),
    reqField_cons_ne (by decide), reqField_cons_ne (by decide),
    reqField_cons_ne (by decide), reqField_cons_ne (by decide),
    reqField_cons_ne (by decide), reqField_cons_ne (by decide),
    optField_cons_ne (by decide), reqField_cons_ne (by decide),
    optField_cons_ne (by decide), reqField_cons_ne (by decide),
    reqField_cons_ne (by decide), optField_cons_ne (by decide),
    optField_null_cons h, reqField_cons_ne (by decide),
    optField_of_not_mem h]

theorem decodeDaily_wind_gust_null {fs : List (String × Json)}
    (h : "wind_gust" ∉ fs.map Prod.fst) :
    decodeDaily (.obj (("wind_gust", Json.null) :: fs)) =
      decodeDaily (.obj fs) := by
  simp only [decodeDaily]
  rw [reqField_cons_ne (by decide), reqField_cons_ne (by decide),
    reqField_cons_ne (by decide), reqField_cons_ne (by decide),
    reqField_cons_ne (by decide), reqField_cons_ne (by decide),
    reqField_cons_ne (by decide), reqField_cons_ne (by decide),
    reqField_cons_ne (by decide), reqField_cons_ne (by decide),
    reqField_cons_ne (by decide), reqField_cons_ne (by decide),
    optField_null_cons h, reqField_cons_ne (by decide),
    reqField_cons_ne (by decide), reqField_cons_ne (by decide),
    reqField_cons_ne (by decide), optField_cons_ne (by decide),
    optField_cons_ne (by decide), reqField_cons_ne (by decide),
    optField_of_not_mem h]

theorem decodeDaily_rain_null {fs : List (String × Json)}
    (h : "rain" ∉ fs.map Prod.fst) :
    decodeDaily (.obj (("rain", Json.null) :: fs)) =
      decodeDaily (.obj fs) := by
  simp only [decodeDaily]
  rw [reqField_cons_ne (by decide), reqField_cons_ne (by decide),
    reqField_cons_ne (by decide), reqField_cons_ne (by decide),
    reqField_cons_ne (by decide), reqField_cons_ne (by decide),
    reqField_cons_ne (by decide), reqField_cons_ne (by decide),
    reqField_cons_ne (by decide), reqField_cons_ne (by decide),
    reqField_cons_ne (by decide), reqField_cons_ne (by decide),
    optField_cons_ne (by decide), reqField_cons_ne (by decide),
    reqField_cons_ne (by decide), reqField_cons_ne (by decide),
    reqField_cons_ne (by decide), optField_null_cons h,
    optField_cons_ne (by decide), reqField_cons_ne (by decide),
    optField_of_not_mem h]

theorem decodeDaily_snow_null {fs : List (String × Json)}
    (h : "snow" ∉ fs.map Prod.fst) :
    decodeDaily (.obj (("snow", Json.null) :: fs)) =
      decodeDaily (.obj fs) := by
  simp only [decodeDaily]
  rw [reqField_cons_ne (by decide), reqField_cons_ne (by decide),
    reqField_cons_ne (by decide), reqField_cons_ne (by decide),
    reqField_cons_ne (by decide), reqField_cons_ne (by decide),
    reqField_cons_ne (by decide), reqField_cons_ne (by decide),
    reqField_cons_ne (by decide), reqField_cons_ne (by decide),
    reqField_cons_ne (by decide), reqField_cons_ne (by decide),
    optField_cons_ne (by decide), reqField_cons_ne (by decide),
    reqField_cons_ne (by decide), reqField_cons_ne (by decide),
    reqField_cons_ne (by decide), optField_cons_ne (by decide),
    optField_null_cons h, reqField_cons_ne (by decide),
    optField_of_not_mem h]

theorem decodeWeather_current_null {fs : List (String × Json)}
    (h : "current" ∉ fs.map Prod.fst) :
    decodeWeather (.obj (("current", Json.null) :: fs)) =
      decodeWeather (.obj fs) := by
  simp only [decodeWeather]
  rw [optField_null_cons h, optField_cons_ne (by decide),
    optField_cons_ne (by decide), optField_cons_ne (by decide),
    optField_cons_ne (by decide), optField_of_not_mem h]

theorem decodeWeather_minutely_null {fs : List (String × Json)}
    (h : "minutely" ∉ fs.map Prod.fst) :
    decodeWeather (.obj (("minutely", Json.null) :: fs)) =
      decodeWeather (.obj fs) := by
  simp only [decodeWeather]
  rw [optField_cons_ne (by decide), optField_null_cons h,
    optField_cons_ne (by decide), optField_cons_ne (by decide),
    optField_cons_ne (by decide), optField_of_not_mem h]

theorem decodeWeather_hourly_null {fs : List (String × Json)}
    (h : "hourly" ∉ fs.map Prod.fst) :
    decodeWeather (.obj (("hourly", Json.null) :: fs)) =
      decodeWeather (.obj fs) := by
  simp only [decodeWeather]
  rw [optField_cons_ne (by decide), optField_cons_ne (by decide),
    optField_null_cons h, optField_cons_ne (by decide),
    optField_cons_ne (by decide), optField_of_not_mem h]

theorem decodeWeather_daily_null {fs : List (String × Json)}
    (h : "daily" ∉ fs.map Prod.fst) :
    decodeWeather (.obj (("daily", Json.null) :: fs)) =
      decodeWeather (.obj fs) := by
  simp only [decodeWeather]
  rw [optField_cons_ne (by decide), optField_cons_ne (by decide),
    optField_cons_ne (by decide), optField_null_cons h,
    optField_cons_ne (by decide), optField_of_not_mem h]

theorem decodeWeather_alerts_null {fs : List (String × Json)}
    (h : "alerts" ∉ fs.map Prod.fst) :
    decodeWeather (.obj (("alerts", Json.null) :: fs)) =
      decodeWeather (.obj fs) := by
  simp only [decodeWeather]
  rw [optField_cons_ne (by decide), optField_cons_ne (by decide),
    optField_cons_ne (by decide), optField_cons_ne (by decide),
    optField_null_cons h, optField_of_not_mem h]

/-! ### Concrete fixtures -/

/-- A valid `current` JSON object (fields in a typical response order). -/
def currentFieldsJson : List (String × Json) :=
  [("dt", .num (.posInt 1721691041)),
   ("sunrise", .num (.posInt 1721646000)),
   ("sunset", .num (.posInt 1721700000)),
   ("temp", .num (.float 2955 (-1))),
   ("feels_like", .num (.float 2960 (-1))),
   ("pressure", .num (.posInt 1013)),
   ("humidity", .num (.posInt 53)),
   ("dew_point", .num (.float 2852 (-1))),
   ("clouds", .num (.posInt 20)),
   ("uvi", .num (.float 63 (-1))),
   ("visibility", .num (.posInt 10000)),
   ("wind_speed", .num (.float 36 (-1))),
   ("wind_deg", .num (.posInt 240)),
   ("weather", .arr [.obj [("id", .num (.posInt 800)),
                           ("main", .str "Clear"),
                           ("description", .str "clear sky"),
                           ("icon", .str "01d")]])]

/-- The `Current` value that `currentFieldsJson` decodes to. -/
def currentValue : Current :=
  ⟨⟨⟨1721691041, 0⟩, .UTC⟩, ⟨⟨1721646000, 0⟩, .UTC⟩, ⟨⟨1721700000, 0⟩, .UTC⟩,
   .float 2955 (-1), .float 2960 (-1), 1013, 53, .float 2852 (-1), 20,
   .float 63 (-1), some 10000, .float 36 (-1), none, 240, none, none,
   [⟨800, .Clear, "clear sky", "01d"⟩]⟩

/-- `currentFieldsJson` with the required `temp` key removed. -/
def currentFieldsNoTemp : List (String × Json) :=
  currentFieldsJson.filter (fun p => p.1 != "temp")

/-! ### The claims -/

/-- C1: the spec requires the `cod` decoder to inspect the runtime JSON kind
and tag the result (bare string to the textual variant, bare number to the
numeric variant).  The source instead derives the default externally tagged
representation for `ErrorCode` (no `#[serde(untagged)]`), so a bare JSON
string for `cod` is read as an enum *variant name* (unknown-variant error)
and a bare JSON number is an invalid-type error; neither bare form ever
decodes.  This theorem evaluates the code at the failing inputs. -/
theorem c1_bare_cod_rejected :
    decodeOwmError (.obj [("cod", .str "404"), ("message", .str "x")]) =
      .error (.unknownVariant "404" errorCodeVariants) ∧
    decodeOwmError (.obj [("cod", .num (.posInt 404)), ("message", .str "x")])
      = .error (.invalidType "integer" "enum ErrorCode") ∧
    decodeErrorCode (.str "404") =
      .error (.unknownVariant "404" errorCodeVariants) ∧
    decodeErrorCode (.num (.posInt 404)) =
      .error (.invalidType "integer" "enum ErrorCode") ∧
    decodeErrorCode (.obj [("Number", .num (.posInt 404))]) =
      .ok (.Number 404) ∧
    decodeErrorCode (.obj [("String", .str "404")]) = .ok (.String "404") :=
  ⟨rfl, rfl, rfl, rfl, rfl, rfl⟩

/-- C2: encode-then-decode of each `ErrorCode` variant does reproduce the
original value, but the serialized form of `OwmError` is not the claimed
bare two-field shape: `cod` serializes as an externally tagged one-entry map
(`\x7b"Number": 404\x7d`), and the bare shape the claim describes is rejected by
the decoder.  This theorem evaluates the code at the failing input. -/
theorem c2_roundtrip_shape :
    decodeErrorCode (encodeErrorCode (.Number 404)) = .ok (.Number 404) ∧
    decodeErrorCode (encodeErrorCode (.Number (-1))) = .ok (.Number (-1)) ∧
    decodeErrorCode (encodeErrorCode (.String "404")) = .ok (.String "404") ∧
    encodeOwmError ⟨.Number 404, "Invalid API key"⟩ =
      .obj [("cod", .obj [("Number", .num (.posInt 404))]),
            ("message", .str "Invalid API key")] ∧
    encodeOwmError ⟨.String "404", "m"⟩ =
      .obj [("cod", .obj [("String", .str "404")]), ("message", .str "m")] ∧
    decodeOwmError (.obj [("cod", .num (.posInt 404)), ("message", .str "m")])
      = .error (.invalidType "integer" "enum ErrorCode") :=
  ⟨rfl, rfl, rfl, rfl, rfl, rfl⟩

/-- C3: an integer timestamp decodes exactly when it lies in the
representable epoch-second range: an unsigned value above `i64::MAX` fails
with an error naming the value (never truncating); otherwise success is
equivalent to lying in the jiff range; the extreme representable values
decode and one unit beyond either bound fails with an error naming the
value.  No clamping or wrapping occurs. -/
theorem c3_timestamp_range :
    (∀ n : Nat, 9223372036854775807 < n →
      ts_seconds.deserialize (.num (.posInt n)) =
        .error (.custom ("invalid timestamp: " ++ toString n))) ∧
    (∀ n : Nat, (ts_seconds.deserialize (.num (.posInt n))).isOk = true ↔
      (n : Int) ≤ jiffMaxSecond) ∧
    (∀ i : Int, i < 0 →
      ((ts_seconds.deserialize (.num (.negInt i))).isOk = true ↔
        jiffMinSecond ≤ i)) ∧
    ts_seconds.deserialize (.num (.posInt 253402207200)) =
      .ok ⟨⟨253402207200, 0⟩, .UTC⟩ ∧
    ts_seconds.deserialize (.num (.negInt (-377705023201))) =
      .ok ⟨⟨-377705023201, 0⟩, .UTC⟩ ∧
    ts_seconds.deserialize (.num (.posInt 253402207201)) =
      .error (.custom ("invalid timestamp: " ++
        jiffErrorDisplay (.secondOutOfRange 253402207201))) ∧
    ts_seconds.deserialize (.num (.negInt (-377705023202))) =
      .error (.custom ("invalid timestamp: " ++
        jiffErrorDisplay (.secondOutOfRange (-377705023202)))) := by
  refine ⟨?_, ?_, ?_, rfl, rfl, rfl, rfl⟩
  · intro n h
    show ts_seconds.visit_u64 n =
      .error (.custom ("invalid timestamp: " ++ toString n))
    unfold ts_seconds.visit_u64
    rw [if_pos h]
    rfl
  · intro n
    show (ts_seconds.visit_u64 n).isOk = true ↔ (n : Int) ≤ jiffMaxSecond
    unfold ts_seconds.visit_u64 Timestamp.from_second
    by_cases h1 : 9223372036854775807 < n
    · rw [if_pos h1]
      exact ⟨(fun hx => nomatch hx),
        (fun hx => absurd hx (by unfold jiffMaxSecond; omega))⟩
    · rw [if_neg h1]
      by_cases h2 : jiffMinSecond ≤ (n : Int) ∧ (n : Int) ≤ jiffMaxSecond
      · rw [if_pos h2]
        exact ⟨fun _ => h2.2, fun _ => rfl⟩
      · rw [if_neg h2]
        refine ⟨(fun hx => nomatch hx), (fun hx => absurd ?_ h2)⟩
        exact ⟨by unfold jiffMinSecond; omega, hx⟩
  · intro i hi
    show (ts_seconds.visit_i64 i).isOk = true ↔ jiffMinSecond ≤ i
    unfold ts_seconds.visit_i64 Timestamp.from_second
    by_cases h2 : jiffMinSecond ≤ i ∧ i ≤ jiffMaxSecond
    · rw [if_pos h2]
      exact ⟨fun _ => h2.1, fun _ => rfl⟩
    · rw [if_neg h2]
      refine ⟨(fun hx => nomatch hx), (fun hx => absurd ?_ h2)⟩
      exact ⟨hx, by unfold jiffMaxSecond; omega⟩

/-- Witness for C3 at concrete inputs. -/
theorem c3_timestamp_range_witness :
    ts_seconds.deserialize (.num (.posInt 9223372036854775808)) =
      .error (.custom ("invalid timestamp: " ++
        toString (9223372036854775808 : Nat))) ∧
    ((ts_seconds.deserialize (.num (.negInt (-5)))).isOk = true ↔
      jiffMinSecond ≤ (-5 : Int)) :=
  ⟨c3_timestamp_range.1 9223372036854775808 (by decide),
   c3_timestamp_range.2.2.1 (-5) (by decide)⟩

/-- C4 counterexample: decoding `\x7b"dt": 1721691041\x7d` yields the instant
with epoch second 1721691041, but the civil UTC datetime
2024-07-22T20:24:01Z named by the claim has epoch second 1721679841, a
different instant. -/
theorem c4_civil_time_counterexample :
    ts_seconds.deserialize (.num (.posInt 1721691041)) =
      .ok ⟨⟨1721691041, 0⟩, .UTC⟩ ∧
    utcEpochSecond 2024 7 22 20 24 1 = 1721679841 ∧
    (1721679841 : Int) ≠ 1721691041 :=
  ⟨rfl, by decide, by decide⟩

/-- C4 as amended: every in-range epoch-second integer (arriving as an
unsigned or as a negative signed token) decodes to the instant with exactly
that second, zero sub-second component, and time zone UTC; in particular
1721691041 decodes to the UTC instant 2024-07-22T23:30:41Z. -/
theorem c4_amended_utc_instant :
    (∀ n : Nat, (n : Int) ≤ jiffMaxSecond →
      ts_seconds.deserialize (.num (.posInt n)) =
        .ok ⟨⟨(n : Int), 0⟩, .UTC⟩) ∧
    (∀ i : Int, jiffMinSecond ≤ i → i < 0 →
      ts_seconds.deserialize (.num (.negInt i)) = .ok ⟨⟨i, 0⟩, .UTC⟩) ∧
    ts_seconds.deserialize (.num (.posInt 1721691041)) =
      .ok ⟨⟨utcEpochSecond 2024 7 22 23 30 41, 0⟩, .UTC⟩ := by
  refine ⟨?_, ?_, ?_⟩
  · intro n hn
    show ts_seconds.visit_u64 n = .ok ⟨⟨(n : Int), 0⟩, .UTC⟩
    unfold ts_seconds.visit_u64 Timestamp.from_second
    rw [if_neg (by unfold jiffMaxSecond at hn; omega),
      if_pos ⟨by unfold jiffMinSecond; omega, hn⟩]
    rfl
  · intro i h1 h2
    show ts_seconds.visit_i64 i = .ok ⟨⟨i, 0⟩, .UTC⟩
    unfold ts_seconds.visit_i64 Timestamp.from_second
    rw [if_pos ⟨h1, by unfold jiffMaxSecond; omega⟩]
    rfl
  · have h : utcEpochSecond 2024 7 22 23 30 41 = 1721691041 := by decide
    rw [h]
    rfl

/-- Witness for C4 at concrete inputs. -/
theorem c4_amended_utc_instant_witness :
    ts_seconds.deserialize (.num (.posInt 1721691041)) =
      .ok ⟨⟨(1721691041 : Nat), 0⟩, .UTC⟩ ∧
    ts_seconds.deserialize (.num (.negInt (-1))) = .ok ⟨⟨-1, 0⟩, .UTC⟩ :=
  ⟨c4_amended_utc_instant.1 1721691041 (by decide),
   c4_amended_utc_instant.2.1 (-1) (by decide) (by decide)⟩

theorem mainFromString_eq_none {s : String} (hs : s ∉ mainVariants) :
    mainFromString s = none := by
  have hne : ∀ t : String, t ∈ mainVariants → ¬((s == t) = true) :=
    fun t ht hbeq => hs (eq_of_beq hbeq ▸ ht)
  unfold mainFromString
  rw [if_neg (hne "Thunderstorm" (by decide)),
    if_neg (hne "Drizzle" (by decide)), if_neg (hne "Rain" (by decide)),
    if_neg (hne "Snow" (by decide)), if_neg (hne "Mist" (by decide)),
    if_neg (hne "Smoke" (by decide)), if_neg (hne "Haze" (by decide)),
    if_neg (hne "Dust" (by decide)), if_neg (hne "Fog" (by decide)),
    if_neg (hne "Sand" (by decide)), if_neg (hne "Ash" (by decide)),
    if_neg (hne "Squall" (by decide)), if_neg (hne "Tornado" (by decide)),
    if_neg (hne "Clear" (by decide)), if_neg (hne "Clouds" (by decide))]

theorem mainFromString_isSome_of_mem {s : String} (hs : s ∈ mainVariants) :
    (mainFromString s).isSome = true := by
  simp only [mainVariants, List.mem_cons, List.not_mem_nil, or_false] at hs
  rcases hs with rfl | rfl | rfl | rfl | rfl | rfl | rfl | rfl | rfl | rfl |
    rfl | rfl | rfl | rfl | rfl <;> rfl

theorem mainFromString_isSome (s : String) :
    (mainFromString s).isSome = true ↔ s ∈ mainVariants := by
  constructor
  · intro h
    by_contra hs
    rw [mainFromString_eq_none hs] at h
    exact Bool.noConfusion h
  · exact mainFromString_isSome_of_mem

theorem decodeMain_str_isOk (s : String) :
    (decodeMain (.str s)).isOk = (mainFromString s).isSome := by
  show (match mainFromString s with
        | some m => Except.ok m
        | none =>
            Except.error (DecErr.unknownVariant s mainVariants)).isOk =
      (mainFromString s).isSome
  cases mainFromString s <;> rfl

/-- C5: a string in the `main` position decodes successfully exactly when it
is one of the 15 category names, matched exactly (case-sensitive, no
trimming, no synonyms); any other string fails with an unknown-variant
error carrying that string (no fallback variant); "Clear" decodes to
`Main.Clear` and "Blizzard" fails. -/
theorem c5_main_closed_vocabulary :
    (∀ s : String,
      (decodeMain (.str s)).isOk = true ↔ s ∈ mainVariants) ∧
    (∀ s : String, s ∉ mainVariants →
      decodeMain (.str s) = .error (.unknownVariant s mainVariants)) ∧
    decodeMain (.str "Clear") = .ok .Clear ∧
    decodeMain (.str "Blizzard") =
      .error (.unknownVariant "Blizzard" mainVariants) := by
  refine ⟨?_, ?_, rfl, rfl⟩
  · intro s
    rw [decodeMain_str_isOk]
    exact mainFromString_isSome s
  · intro s hs
    have h0 : mainFromString s = none := by
      cases h : mainFromString s with
      | none => rfl
      | some m =>
          exact absurd ((mainFromString_isSome s).mp (by rw [h]; rfl)) hs
    show (match mainFromString s with
          | some m => Except.ok m
          | none =>
              Except.error (DecErr.unknownVariant s mainVariants)) =
        Except.error (DecErr.unknownVariant s mainVariants)
    rw [h0]

/-- Witness for C5 at a concrete input. -/
theorem c5_main_closed_vocabulary_witness :
    decodeMain (.str "Sunny") =
      .error (.unknownVariant "Sunny" mainVariants) :=
  c5_main_closed_vocabulary.2.1 "Sunny" (by decide)

theorem optVal_isSome {α : Type} {dec : Json → Except DecErr α} {v : Json}
    {o : Option α} (h : decodeNullable dec v = .ok o)
    (hv : v.isNull = false) : o.isSome = true := by
  rw [decodeNullable_of_not_null hv] at h
  cases hd : dec v with
  | error e => rw [hd] at h; exact Except.noConfusion h
  | ok a => rw [hd] at h; injection h with h; rw [← h]; rfl

theorem optField_isSome {α : Type} {fs : List (String × Json)}
    {name : String} {dec : Json → Except DecErr α} {o : Option α}
    (h : optField fs name dec = .ok o) :
    o.isSome = boundNonNull fs name := by
  cases hg : getField fs name with
  | error e =>
      unfold optField at h
      rw [hg] at h
      exact Except.noConfusion h
  | ok w =>
      unfold optField at h
      rw [hg] at h
      unfold boundNonNull
      rw [hg]
      cases w with
      | none =>
          injection h with h
          rw [← h]
          rfl
      | some v =>
          cases v with
          | null =>
              injection h with h
              rw [← h]
              rfl
          | bool b => exact (optVal_isSome h rfl).trans rfl
          | num n => exact (optVal_isSome h rfl).trans rfl
          | str s => exact (optVal_isSome h rfl).trans rfl
          | arr xs => exact (optVal_isSome h rfl).trans rfl
          | obj fs2 => exact (optVal_isSome h rfl).trans rfl

/-- C6: in the decoded top-level document each of the five sections is
present exactly when its key is bound to a non-null value in the JSON; in
particular a document containing only a `current` key decodes with
`current` populated and the other four sections not present (not defaulted
to empty sequences). -/
theorem c6_sections_presence :
    (∀ (fs : List (String × Json)) (r : Weather),
      decodeWeather (.obj fs) = .ok r →
        r.current.isSome = boundNonNull fs "current" ∧
        r.minutely.isSome = boundNonNull fs "minutely" ∧
        r.hourly.isSome = boundNonNull fs "hourly" ∧
        r.daily.isSome = boundNonNull fs "daily" ∧
        r.alerts.isSome = boundNonNull fs "alerts") ∧
    decodeWeather (.obj [("current", .obj currentFieldsJson)]) =
      .ok ⟨some currentValue, none, none, none, none⟩ := by
  refine ⟨?_, rfl⟩
  intro fs r h
  obtain ⟨h1, h2, h3, h4, h5⟩ := decodeWeather_ok h
  exact ⟨optField_isSome h1, optField_isSome h2, optField_isSome h3,
    optField_isSome h4, optField_isSome h5⟩

/-- Witness for C6 at a concrete input. -/
theorem c6_sections_presence_witness :
    (Weather.mk (some currentValue) none none none none).current.isSome =
      boundNonNull [("current", Json.obj currentFieldsJson)] "current" ∧
    (Weather.mk (some currentValue) none none none none).minutely.isSome =
      boundNonNull [("current", Json.obj currentFieldsJson)] "minutely" ∧
    (Weather.mk (some currentValue) none none none none).hourly.isSome =
      boundNonNull [("current", Json.obj currentFieldsJson)] "hourly" ∧
    (Weather.mk (some currentValue) none none none none).daily.isSome =
      boundNonNull [("current", Json.obj currentFieldsJson)] "daily" ∧
    (Weather.mk (some currentValue) none none none none).alerts.isSome =
      boundNonNull [("current", Json.obj currentFieldsJson)] "alerts" :=
  c6_sections_presence.1 [("current", Json.obj currentFieldsJson)]
    (Weather.mk (some currentValue) none none none none) rfl

theorem reqField_ok_mem {α : Type} {fs : List (String × Json)}
    {name : String} {dec : Json → Except DecErr α} {x : α}
    (h : reqField fs name dec = .ok x) : name ∈ fs.map Prod.fst := by
  by_contra habs
  rw [reqField_of_not_mem habs] at h
  exact Except.noConfusion h

/-! ### The required fields of each record (declaration order) and the
acceptance condition of each required field's decoder. -/

/-- The required (non-`Option`) fields of `Current`. -/
def currentRequiredNames : List String :=
  ["dt", "sunrise", "sunset", "temp", "feels_like", "pressure", "humidity",
   "dew_point", "clouds", "uvi", "wind_speed", "wind_deg", "weather"]

/-- The required fields of `Hourly`. -/
def hourlyRequiredNames : List String :=
  ["dt", "temp", "feels_like", "pressure", "humidity", "dew_point", "uvi",
   "clouds", "wind_speed", "wind_deg", "pop", "weather"]

/-- The required fields of `Daily`. -/
def dailyRequiredNames : List String :=
  ["dt", "sunrise", "sunset", "moonrise", "moonset", "moon_phase", "temp",
   "feels_like", "pressure", "humidity", "dew_point", "wind_speed",
   "wind_deg", "clouds", "uvi", "pop", "weather"]

/-- The required fields of `Minutely`. -/
def minutelyRequiredNames : List String := ["dt", "precipitation"]

/-- The required fields of `Alert`. -/
def alertRequiredNames : List String :=
  ["sender_name", "event", "start", "end", "description", "tags"]

/-- The required fields of `WeatherElement`. -/
def weatherElementRequiredNames : List String :=
  ["id", "main", "description", "icon"]

/-- The required field of `Precipitation` (JSON key `1h`). -/
def precipitationRequiredNames : List String := ["1h"]

/-- The required fields of `DailyTemperature`. -/
def dailyTemperatureRequiredNames : List String :=
  ["morn", "day", "eve", "night", "min", "max"]

/-- The required fields of `DailyFeelsLikeTemperature`. -/
def dailyFeelsLikeRequiredNames : List String :=
  ["morn", "day", "eve", "night"]

/-- The required fields of `OwmError` (JSON keys `cod` and `message`). -/
def owmErrorRequiredNames : List String := ["cod", "message"]

/-- The optional section keys of the top-level `Weather` document. -/
def weatherSectionNames : List String :=
  ["current", "minutely", "hourly", "daily", "alerts"]

/-- Whether the field decoder of the named required `Current` field accepts
a JSON value (any other name: trivially true). -/
def currentFieldOk : String → Json → Prop
  | "dt", v | "sunrise", v | "sunset", v =>
      ∃ z, ts_seconds.deserialize v = .ok z
  | "temp", v | "feels_like", v | "dew_point", v | "uvi", v
  | "wind_speed", v => ∃ x, decodeF64 v = .ok x
  | "pressure", v | "wind_deg", v => ∃ n, decodeU16 v = .ok n
  | "humidity", v | "clouds", v => ∃ n, decodeU8 v = .ok n
  | "weather", v => ∃ ws, decodeVec decodeWeatherElement v = .ok ws
  | _, _ => True

/-- Field-decoder acceptance for the required `Hourly` fields. -/
def hourlyFieldOk : String → Json → Prop
  | "dt", v => ∃ z, ts_seconds.deserialize v = .ok z
  | "temp", v | "feels_like", v | "dew_point", v | "uvi", v
  | "wind_speed", v | "pop", v => ∃ x, decodeF64 v = .ok x
  | "pressure", v | "wind_deg", v => ∃ n, decodeU16 v = .ok n
  | "humidity", v | "clouds", v => ∃ n, decodeU8 v = .ok n
  | "weather", v => ∃ ws, decodeVec decodeWeatherElement v = .ok ws
  | _, _ => True

/-- Field-decoder acceptance for the required `Daily` fields. -/
def dailyFieldOk : String → Json → Prop
  | "dt", v | "sunrise", v | "sunset", v | "moonrise", v | "moonset", v =>
      ∃ z, ts_seconds.deserialize v = .ok z
  | "moon_phase", v | "dew_point", v | "wind_speed", v | "uvi", v
  | "pop", v => ∃ x, decodeF64 v = .ok x
  | "temp", v => ∃ t, decodeDailyTemperature v = .ok t
  | "feels_like", v => ∃ t, decodeDailyFeelsLike v = .ok t
  | "pressure", v | "wind_deg", v => ∃ n, decodeU16 v = .ok n
  | "humidity", v | "clouds", v => ∃ n, decodeU8 v = .ok n
  | "weather", v => ∃ ws, decodeVec decodeWeatherElement v = .ok ws
  | _, _ => True

/-- Field-decoder acceptance for the required `Minutely` fields. -/
def minutelyFieldOk : String → Json → Prop
  | "dt", v => ∃ z, ts_seconds.deserialize v = .ok z
  | "precipitation", v => ∃ x, decodeF64 v = .ok x
  | _, _ => True

/-- Field-decoder acceptance for the required `Alert` fields. -/
def alertFieldOk : String → Json → Prop
  | "sender_name", v | "event", v | "description", v =>
      ∃ s, decodeString v = .ok s
  | "start", v | "end", v => ∃ z, ts_seconds.deserialize v = .ok z
  | "tags", v => ∃ ts, decodeVec decodeString v = .ok ts
  | _, _ => True

/-- Field-decoder acceptance for the required `WeatherElement` fields. -/
def weatherElementFieldOk : String → Json → Prop
  | "id", v => ∃ n, decodeI64 v = .ok n
  | "main", v => ∃ m, decodeMain v = .ok m
  | "description", v | "icon", v => ∃ s, decodeString v = .ok s
  | _, _ => True

/-- Field-decoder acceptance for the required `Precipitation` field. -/
def precipitationFieldOk : String → Json → Prop
  | "1h", v => ∃ x, decodeF64 v = .ok x
  | _, _ => True

/-- Field-decoder acceptance for the required `DailyTemperature` fields. -/
def dailyTemperatureFieldOk : String → Json → Prop
  | "morn", v | "day", v | "eve", v | "night", v | "min", v | "max", v =>
      ∃ x, decodeF64 v = .ok x
  | _, _ => True

/-- Field-decoder acceptance for the required `DailyFeelsLikeTemperature`
fields. -/
def dailyFeelsLikeFieldOk : String → Json → Prop
  | "morn", v | "day", v | "eve", v | "night", v =>
      ∃ x, decodeF64 v = .ok x
  | _, _ => True

/-- Field-decoder acceptance for the required `OwmError` fields. -/
def owmErrorFieldOk : String → Json → Prop
  | "cod", v => ∃ c, decodeErrorCode v = .ok c
  | "message", v => ∃ s, decodeString v = .ok s
  | _, _ => True

/-- Section-decoder acceptance for the optional `Weather` sections. -/
def weatherSectionOk : String → Json → Prop
  | "current", v => ∃ c, decodeCurrent v = .ok c
  | "minutely", v => ∃ xs, decodeVec decodeMinutely v = .ok xs
  | "hourly", v => ∃ xs, decodeVec decodeHourly v = .ok xs
  | "daily", v => ∃ xs, decodeVec decodeDaily v = .ok xs
  | "alerts", v => ∃ xs, decodeVec decodeAlert v = .ok xs
  | _, _ => True

/-- C7: decoding is all-or-nothing for every record of the model.  For each
of the ten record decoders: (a) if any required field's key is absent the
record never decodes to a value, and (b) if any required field's key is
bound to a value its field decoder rejects — a wrong JSON type or a failing
nested decoder (timestamp, condition, nested record) — the record never
decodes to a value.  At the top level, an optional section bound to a
non-null value whose section decoder fails also fails the whole decode.  No
partial record is ever produced (the result type permits none).  In
particular, an otherwise-valid `current` object without `temp` fails with a
missing-field error naming `temp`. -/
theorem c7_all_or_nothing :
    (∀ (fs : List (String × Json)) (name : String),
      name ∈ currentRequiredNames → name ∉ fs.map Prod.fst →
      ∀ r : Current, decodeCurrent (.obj fs) ≠ .ok r) ∧
    (∀ (fs : List (String × Json)) (name : String),
      name ∈ hourlyRequiredNames → name ∉ fs.map Prod.fst →
      ∀ r : Hourly, decodeHourly (.obj fs) ≠ .ok r) ∧
    (∀ (fs : List (String × Json)) (name : String),
      name ∈ dailyRequiredNames → name ∉ fs.map Prod.fst →
      ∀ r : Daily, decodeDaily (.obj fs) ≠ .ok r) ∧
    (∀ (fs : List (String × Json)) (name : String),
      name ∈ minutelyRequiredNames → name ∉ fs.map Prod.fst →
      ∀ r : Minutely, decodeMinutely (.obj fs) ≠ .ok r) ∧
    (∀ (fs : List (String × Json)) (name : String),
      name ∈ alertRequiredNames → name ∉ fs.map Prod.fst →
      ∀ r : Alert, decodeAlert (.obj fs) ≠ .ok r) ∧
    (∀ (fs : List (String × Json)) (name : String),
      name ∈ weatherElementRequiredNames → name ∉ fs.map Prod.fst →
      ∀ r : WeatherElement, decodeWeatherElement (.obj fs) ≠ .ok r) ∧
    (∀ (fs : List (String × Json)) (name : String),
      name ∈ precipitationRequiredNames → name ∉ fs.map Prod.fst →
      ∀ r : Precipitation, decodePrecipitation (.obj fs) ≠ .ok r) ∧
    (∀ (fs : List (String × Json)) (name : String),
      name ∈ dailyTemperatureRequiredNames → name ∉ fs.map Prod.fst →
      ∀ r : DailyTemperature, decodeDailyTemperature (.obj fs) ≠ .ok r) ∧
    (∀ (fs : List (String × Json)) (name : String),
      name ∈ dailyFeelsLikeRequiredNames → name ∉ fs.map Prod.fst →
      ∀ r : DailyFeelsLikeTemperature,
        decodeDailyFeelsLike (.obj fs) ≠ .ok r) ∧
    (∀ (fs : List (String × Json)) (name : String),
      name ∈ owmErrorRequiredNames → name ∉ fs.map Prod.fst →
      ∀ r : OwmError, decodeOwmError (.obj fs) ≠ .ok r) ∧
    (∀ (fs : List (String × Json)) (name : String) (v : Json),
      name ∈ currentRequiredNames → (name, v) ∈ fs →
      ¬ currentFieldOk name v →
      ∀ r : Current, decodeCurrent (.obj fs) ≠ .ok r) ∧
    (∀ (fs : List (String × Json)) (name : String) (v : Json),
      name ∈ hourlyRequiredNames → (name, v) ∈ fs →
      ¬ hourlyFieldOk name v →
      ∀ r : Hourly, decodeHourly (.obj fs) ≠ .ok r) ∧
    (∀ (fs : List (String × Json)) (name : String) (v : Json),
      name ∈ dailyRequiredNames → (name, v) ∈ fs →
      ¬ dailyFieldOk name v →
      ∀ r : Daily, decodeDaily (.obj fs) ≠ .ok r) ∧
    (∀ (fs : List (String × Json)) (name : String) (v : Json),
      name ∈ minutelyRequiredNames → (name, v) ∈ fs →
      ¬ minutelyFieldOk name v →
      ∀ r : Minutely, decodeMinutely (.obj fs) ≠ .ok r) ∧
    (∀ (fs : List (String × Json)) (name : String) (v : Json),
      name ∈ alertRequiredNames → (name, v) ∈ fs →
      ¬ alertFieldOk name v →
      ∀ r : Alert, decodeAlert (.obj fs) ≠ .ok r) ∧
    (∀ (fs : List (String × Json)) (name : String) (v : Json),
      name ∈ weatherElementRequiredNames → (name, v) ∈ fs →
      ¬ weatherElementFieldOk name v →
      ∀ r : WeatherElement, decodeWeatherElement (.obj fs) ≠ .ok r) ∧
    (∀ (fs : List (String × Json)) (name : String) (v : Json),
      name ∈ precipitationRequiredNames → (name, v) ∈ fs →
      ¬ precipitationFieldOk name v →
      ∀ r : Precipitation, decodePrecipitation (.obj fs) ≠ .ok r) ∧
    (∀ (fs : List (String × Json)) (name : String) (v : Json),
      name ∈ dailyTemperatureRequiredNames → (name, v) ∈ fs →
      ¬ dailyTemperatureFieldOk name v →
      ∀ r : DailyTemperature, decodeDailyTemperature (.obj fs) ≠ .ok r) ∧
    (∀ (fs : List (String × Json)) (name : String) (v : Json),
      name ∈ dailyFeelsLikeRequiredNames → (name, v) ∈ fs →
      ¬ dailyFeelsLikeFieldOk name v →
      ∀ r : DailyFeelsLikeTemperature,
        decodeDailyFeelsLike (.obj fs) ≠ .ok r) ∧
    (∀ (fs : List (String × Json)) (name : String) (v : Json),
      name ∈ owmErrorRequiredNames → (name, v) ∈ fs →
      ¬ owmErrorFieldOk name v →
      ∀ r : OwmError, decodeOwmError (.obj fs) ≠ .ok r) ∧
    (∀ (fs : List (String × Json)) (name : String) (v : Json),
      name ∈ weatherSectionNames → (name, v) ∈ fs → v.isNull = false →
      ¬ weatherSectionOk name v →
      ∀ r : Weather, decodeWeather (.obj fs) ≠ .ok r) ∧
    decodeCurrent (.obj currentFieldsNoTemp) =
      .error (.missingField "temp") := by
  refine ⟨?_, ?_, ?_, ?_, ?_, ?_, ?_, ?_, ?_, ?_, ?_, ?_, ?_, ?_, ?_, ?_,
    ?_, ?_, ?_, ?_, ?_, rfl⟩
  · intro fs name hname habs r hok
    obtain ⟨h1, h2, h3, h4, h5, h6, h7, h8, h9, h10, _, h12, _, h14, _, _,
      h17⟩ := decodeCurrent_ok hok
    simp only [currentRequiredNames, List.mem_cons, List.not_mem_nil,
      or_false] at hname
    rcases hname with rfl | rfl | rfl | rfl | rfl | rfl | rfl | rfl | rfl |
      rfl | rfl | rfl | rfl
    · exact habs (reqField_ok_mem h1)
    · exact habs (reqField_ok_mem h2)
    · exact habs (reqField_ok_mem h3)
    · exact habs (reqField_ok_mem h4)
    · exact habs (reqField_ok_mem h5)
    · exact habs (reqField_ok_mem h6)
    · exact habs (reqField_ok_mem h7)
    · exact habs (reqField_ok_mem h8)
    · exact habs (reqField_ok_mem h9)
    · exact habs (reqField_ok_mem h10)
    · exact habs (reqField_ok_mem h12)
    · exact habs (reqField_ok_mem h14)
    · exact habs (reqField_ok_mem h17)
  · intro fs name hname habs r hok
    obtain ⟨h1, h2, h3, h4, h5, h6, h7, h8, _, h10, _, h12, h13, _, _,
      h16⟩ := decodeHourly_ok hok
    simp only [hourlyRequiredNames, List.mem_cons, List.not_mem_nil,
      or_false] at hname
    rcases hname with rfl | rfl | rfl | rfl | rfl | rfl | rfl | rfl | rfl |
      rfl | rfl | rfl
    · exact habs (reqField_ok_mem h1)
    · exact habs (reqField_ok_mem h2)
    · exact habs (reqField_ok_mem h3)
    · exact habs (reqField_ok_mem h4)
    · exact habs (reqField_ok_mem h5)
    · exact habs (reqField_ok_mem h6)
    · exact habs (reqField_ok_mem h7)
    · exact habs (reqField_ok_mem h8)
    · exact habs (reqField_ok_mem h10)
    · exact habs (reqField_ok_mem h12)
    · exact habs (reqField_ok_mem h13)
    · exact habs (reqField_ok_mem h16)
  · intro fs name hname habs r hok
    obtain ⟨h1, h2, h3, h4, h5, h6, h7, h8, h9, h10, h11, h12, _, h14, h15,
      h16, h17, _, _, h20⟩ := decodeDaily_ok hok
    simp only [dailyRequiredNames, List.mem_cons, List.not_mem_nil,
      or_false] at hname
    rcases hname with rfl | rfl | rfl | rfl | rfl | rfl | rfl | rfl | rfl |
      rfl | rfl | rfl | rfl | rfl | rfl | rfl | rfl
    · exact habs (reqField_ok_mem h1)
    · exact habs (reqField_ok_mem h2)
    · exact habs (reqField_ok_mem h3)
    · exact habs (reqField_ok_mem h4)
    · exact habs (reqField_ok_mem h5)
    · exact habs (reqField_ok_mem h6)
    · exact habs (reqField_ok_mem h7)
    · exact habs (reqField_ok_mem h8)
    · exact habs (reqField_ok_mem h9)
    · exact habs (reqField_ok_mem h10)
    · exact habs (reqField_ok_mem h11)
    · exact habs (reqField_ok_mem h12)
    · exact habs (reqField_ok_mem h14)
    · exact habs (reqField_ok_mem h15)
    · exact habs (reqField_ok_mem h16)
    · exact habs (reqField_ok_mem h17)
    · exact habs (reqField_ok_mem h20)
  · intro fs name hname habs r hok
    obtain ⟨h1, h2⟩ := decodeMinutely_ok hok
    simp only [minutelyRequiredNames, List.mem_cons, List.not_mem_nil,
      or_false] at hname
    rcases hname with rfl | rfl
    · exact habs (reqField_ok_mem h1)
    · exact habs (reqField_ok_mem h2)
  · intro fs name hname habs r hok
    obtain ⟨h1, h2, h3, h4, h5, h6⟩ := decodeAlert_ok hok
    simp only [alertRequiredNames, List.mem_cons, List.not_mem_nil,
      or_false] at hname
    rcases hname with rfl | rfl | rfl | rfl | rfl | rfl
    · exact habs (reqField_ok_mem h1)
    · exact habs (reqField_ok_mem h2)
    · exact habs (reqField_ok_mem h3)
    · exact habs (reqField_ok_mem h4)
    · exact habs (reqField_ok_mem h5)
    · exact habs (reqField_ok_mem h6)
  · intro fs name hname habs r hok
    obtain ⟨h1, h2, h3, h4⟩ := decodeWeatherElement_ok hok
    simp only [weatherElementRequiredNames, List.mem_cons,
      List.not_mem_nil, or_false] at hname
    rcases hname with rfl | rfl | rfl | rfl
    · exact habs (reqField_ok_mem h1)
    · exact habs (reqField_ok_mem h2)
    · exact habs (reqField_ok_mem h3)
    · exact habs (reqField_ok_mem h4)
  · intro fs name hname habs r hok
    have h1 := decodePrecipitation_ok hok
    simp only [precipitationRequiredNames, List.mem_cons,
      List.not_mem_nil, or_false] at hname
    rcases hname with rfl
    exact habs (reqField_ok_mem h1)
  · intro fs name hname habs r hok
    obtain ⟨h1, h2, h3, h4, h5, h6⟩ := decodeDailyTemperature_ok hok
    simp only [dailyTemperatureRequiredNames, List.mem_cons,
      List.not_mem_nil, or_false] at hname
    rcases hname with rfl | rfl | rfl | rfl | rfl | rfl
    · exact habs (reqField_ok_mem h1)
    · exact habs (reqField_ok_mem h2)
    · exact habs (reqField_ok_mem h3)
    · exact habs (reqField_ok_mem h4)
    · exact habs (reqField_ok_mem h5)
    · exact habs (reqField_ok_mem h6)
  · intro fs name hname habs r hok
    obtain ⟨h1, h2, h3, h4⟩ := decodeDailyFeelsLike_ok hok
    simp only [dailyFeelsLikeRequiredNames, List.mem_cons,
      List.not_mem_nil, or_false] at hname
    rcases hname with rfl | rfl | rfl | rfl
    · exact habs (reqField_ok_mem h1)
    · exact habs (reqField_ok_mem h2)
    · exact habs (reqField_ok_mem h3)
    · exact habs (reqField_ok_mem h4)
  · intro fs name hname habs r hok
    obtain ⟨h1, h2⟩ := decodeOwmError_ok hok
    simp only [owmErrorRequiredNames, List.mem_cons, List.not_mem_nil,
      or_false] at hname
    rcases hname with rfl | rfl
    · exact habs (reqField_ok_mem h1)
    · exact habs (reqField_ok_mem h2)
  · intro fs name v hname hmem hbad r hok
    obtain ⟨h1, h2, h3, h4, h5, h6, h7, h8, h9, h10, _, h12, _, h14, _, _,
      h17⟩ := decodeCurrent_ok hok
    simp only [currentRequiredNames, List.mem_cons, List.not_mem_nil,
      or_false] at hname
    rcases hname with rfl | rfl | rfl | rfl | rfl | rfl | rfl | rfl | rfl |
      rfl | rfl | rfl | rfl
    · exact reqField_not_ok_of_mem_bad hmem
        (fun z hz => hbad ⟨z, hz⟩) _ h1
    · exact reqField_not_ok_of_mem_bad hmem
        (fun z hz => hbad ⟨z, hz⟩) _ h2
    · exact reqField_not_ok_of_mem_bad hmem
        (fun z hz => hbad ⟨z, hz⟩) _ h3
    · exact reqField_not_ok_of_mem_bad hmem
        (fun x hx => hbad ⟨x, hx⟩) _ h4
    · exact reqField_not_ok_of_mem_bad hmem
        (fun x hx => hbad ⟨x, hx⟩) _ h5
    · exact reqField_not_ok_of_mem_bad hmem
        (fun n hn => hbad ⟨n, hn⟩) _ h6
    · exact reqField_not_ok_of_mem_bad hmem
        (fun n hn => hbad ⟨n, hn⟩) _ h7
    · exact reqField_not_ok_of_mem_bad hmem
        (fun x hx => hbad ⟨x, hx⟩) _ h8
    · exact reqField_not_ok_of_mem_bad hmem
        (fun n hn => hbad ⟨n, hn⟩) _ h9
    · exact reqField_not_ok_of_mem_bad hmem
        (fun x hx => hbad ⟨x, hx⟩) _ h10
    · exact reqField_not_ok_of_mem_bad hmem
        (fun x hx => hbad ⟨x, hx⟩) _ h12
    · exact reqField_not_ok_of_mem_bad hmem
        (fun n hn => hbad ⟨n, hn⟩) _ h14
    · exact reqField_not_ok_of_mem_bad hmem
        (fun ws hws => hbad ⟨ws, hws⟩) _ h17
  · intro fs name v hname hmem hbad r hok
    obtain ⟨h1, h2, h3, h4, h5, h6, h7, h8, _, h10, _, h12, h13, _, _,
      h16⟩ := decodeHourly_ok hok
    simp only [hourlyRequiredNames, List.mem_cons, List.not_mem_nil,
      or_false] at hname
    rcases hname with rfl | rfl | rfl | rfl | rfl | rfl | rfl | rfl | rfl |
      rfl | rfl | rfl
    · exact reqField_not_ok_of_mem_bad hmem
        (fun z hz => hbad ⟨z, hz⟩) _ h1
    · exact reqField_not_ok_of_mem_bad hmem
        (fun x hx => hbad ⟨x, hx⟩) _ h2
    · exact reqField_not_ok_of_mem_bad hmem
        (fun x hx => hbad ⟨x, hx⟩) _ h3
    · exact reqField_not_ok_of_mem_bad hmem
        (fun n hn => hbad ⟨n, hn⟩) _ h4
    · exact reqField_not_ok_of_mem_bad hmem
        (fun n hn => hbad ⟨n, hn⟩) _ h5
    · exact reqField_not_ok_of_mem_bad hmem
        (fun x hx => hbad ⟨x, hx⟩) _ h6
    · exact reqField_not_ok_of_mem_bad hmem
        (fun x hx => hbad ⟨x, hx⟩) _ h7
    · exact reqField_not_ok_of_mem_bad hmem
        (fun n hn => hbad ⟨n, hn⟩) _ h8
    · exact reqField_not_ok_of_mem_bad hmem
        (fun x hx => hbad ⟨x, hx⟩) _ h10
    · exact reqField_not_ok_of_mem_bad hmem
        (fun n hn => hbad ⟨n, hn⟩) _ h12
    · exact reqField_not_ok_of_mem_bad hmem
        (fun x hx => hbad ⟨x, hx⟩) _ h13
    · exact reqField_not_ok_of_mem_bad hmem
        (fun ws hws => hbad ⟨ws, hws⟩) _ h16
  · intro fs name v hname hmem hbad r hok
    obtain ⟨h1, h2, h3, h4, h5, h6, h7, h8, h9, h10, h11, h12, _, h14, h15,
      h16, h17, _, _, h20⟩ := decodeDaily_ok hok
    simp only [dailyRequiredNames, List.mem_cons, List.not_mem_nil,
      or_false] at hname
    rcases hname with rfl | rfl | rfl | rfl | rfl | rfl | rfl | rfl | rfl |
      rfl | rfl | rfl | rfl | rfl | rfl | rfl | rfl
    · exact reqField_not_ok_of_mem_bad hmem
        (fun z hz => hbad ⟨z, hz⟩) _ h1
    · exact reqField_not_ok_of_mem_bad hmem
        (fun z hz => hbad ⟨z, hz⟩) _ h2
    · exact reqField_not_ok_of_mem_bad hmem
        (fun z hz => hbad ⟨z, hz⟩) _ h3
    · exact reqField_not_ok_of_mem_bad hmem
        (fun z hz => hbad ⟨z, hz⟩) _ h4
    · exact reqField_not_ok_of_mem_bad hmem
        (fun z hz => hbad ⟨z, hz⟩) _ h5
    · exact reqField_not_ok_of_mem_bad hmem
        (fun x hx => hbad ⟨x, hx⟩) _ h6
    · exact reqField_not_ok_of_mem_bad hmem
        (fun t ht => hbad ⟨t, ht⟩) _ h7
    · exact reqField_not_ok_of_mem_bad hmem
        (fun t ht => hbad ⟨t, ht⟩) _ h8
    · exact reqField_not_ok_of_mem_bad hmem
        (fun n hn => hbad ⟨n, hn⟩) _ h9
    · exact reqField_not_ok_of_mem_bad hmem
        (fun n hn => hbad ⟨n, hn⟩) _ h10
    · exact reqField_not_ok_of_mem_bad hmem
        (fun x hx => hbad ⟨x, hx⟩) _ h11
    · exact reqField_not_ok_of_mem_bad hmem
        (fun x hx => hbad ⟨x, hx⟩) _ h12
    · exact reqField_not_ok_of_mem_bad hmem
        (fun n hn => hbad ⟨n, hn⟩) _ h14
    · exact reqField_not_ok_of_mem_bad hmem
        (fun n hn => hbad ⟨n, hn⟩) _ h15
    · exact reqField_not_ok_of_mem_bad hmem
        (fun x hx => hbad ⟨x, hx⟩) _ h16
    · exact reqField_not_ok_of_mem_bad hmem
        (fun x hx => hbad ⟨x, hx⟩) _ h17
    · exact reqField_not_ok_of_mem_bad hmem
        (fun ws hws => hbad ⟨ws, hws⟩) _ h20
  · intro fs name v hname hmem hbad r hok
    obtain ⟨h1, h2⟩ := decodeMinutely_ok hok
    simp only [minutelyRequiredNames, List.mem_cons, List.not_mem_nil,
      or_false] at hname
    rcases hname with rfl | rfl
    · exact reqField_not_ok_of_mem_bad hmem
        (fun z hz => hbad ⟨z, hz⟩) _ h1
    · exact reqField_not_ok_of_mem_bad hmem
        (fun x hx => hbad ⟨x, hx⟩) _ h2
  · intro fs name v hname hmem hbad r hok
    obtain ⟨h1, h2, h3, h4, h5, h6⟩ := decodeAlert_ok hok
    simp only [alertRequiredNames, List.mem_cons, List.not_mem_nil,
      or_false] at hname
    rcases hname with rfl | rfl | rfl | rfl | rfl | rfl
    · exact reqField_not_ok_of_mem_bad hmem
        (fun s hs => hbad ⟨s, hs⟩) _ h1
    · exact reqField_not_ok_of_mem_bad hmem
        (fun s hs => hbad ⟨s, hs⟩) _ h2
    · exact reqField_not_ok_of_mem_bad hmem
        (fun z hz => hbad ⟨z, hz⟩) _ h3
    · exact reqField_not_ok_of_mem_bad hmem
        (fun z hz => hbad ⟨z, hz⟩) _ h4
    · exact reqField_not_ok_of_mem_bad hmem
        (fun s hs => hbad ⟨s, hs⟩) _ h5
    · exact reqField_not_ok_of_mem_bad hmem
        (fun ts ht => hbad ⟨ts, ht⟩) _ h6
  · intro fs name v hname hmem hbad r hok
    obtain ⟨h1, h2, h3, h4⟩ := decodeWeatherElement_ok hok
    simp only [weatherElementRequiredNames, List.mem_cons,
      List.not_mem_nil, or_false] at hname
    rcases hname with rfl | rfl | rfl | rfl
    · exact reqField_not_ok_of_mem_bad hmem
        (fun n hn => hbad ⟨n, hn⟩) _ h1
    · exact reqField_not_ok_of_mem_bad hmem
        (fun m hm => hbad ⟨m, hm⟩) _ h2
    · exact reqField_not_ok_of_mem_bad hmem
        (fun s hs => hbad ⟨s, hs⟩) _ h3
    · exact reqField_not_ok_of_mem_bad hmem
        (fun s hs => hbad ⟨s, hs⟩) _ h4
  · intro fs name v hname hmem hbad r hok
    have h1 := decodePrecipitation_ok hok
    simp only [precipitationRequiredNames, List.mem_cons,
      List.not_mem_nil, or_false] at hname
    rcases hname with rfl
    exact reqField_not_ok_of_mem_bad hmem
      (fun x hx => hbad ⟨x, hx⟩) _ h1
  · intro fs name v hname hmem hbad r hok
    obtain ⟨h1, h2, h3, h4, h5, h6⟩ := decodeDailyTemperature_ok hok
    simp only [dailyTemperatureRequiredNames, List.mem_cons,
      List.not_mem_nil, or_false] at hname
    rcases hname with rfl | rfl | rfl | rfl | rfl | rfl
    · exact reqField_not_ok_of_mem_bad hmem
        (fun x hx => hbad ⟨x, hx⟩) _ h1
    · exact reqField_not_ok_of_mem_bad hmem
        (fun x hx => hbad ⟨x, hx⟩) _ h2
    · exact reqField_not_ok_of_mem_bad hmem
        (fun x hx => hbad ⟨x, hx⟩) _ h3
    · exact reqField_not_ok_of_mem_bad hmem
        (fun x hx => hbad ⟨x, hx⟩) _ h4
    · exact reqField_not_ok_of_mem_bad hmem
        (fun x hx => hbad ⟨x, hx⟩) _ h5
    · exact reqField_not_ok_of_mem_bad hmem
        (fun x hx => hbad ⟨x, hx⟩) _ h6
  · intro fs name v hname hmem hbad r hok
    obtain ⟨h1, h2, h3, h4⟩ := decodeDailyFeelsLike_ok hok
    simp only [dailyFeelsLikeRequiredNames, List.mem_cons,
      List.not_mem_nil, or_false] at hname
    rcases hname with rfl | rfl | rfl | rfl
    · exact reqField_not_ok_of_mem_bad hmem
        (fun x hx => hbad ⟨x, hx⟩) _ h1
    · exact reqField_not_ok_of_mem_bad hmem
        (fun x hx => hbad ⟨x, hx⟩) _ h2
    · exact reqField_not_ok_of_mem_bad hmem
        (fun x hx => hbad ⟨x, hx⟩) _ h3
    · exact reqField_not_ok_of_mem_bad hmem
        (fun x hx => hbad ⟨x, hx⟩) _ h4
  · intro fs name v hname hmem hbad r hok
    obtain ⟨h1, h2⟩ := decodeOwmError_ok hok
    simp only [owmErrorRequiredNames, List.mem_cons, List.not_mem_nil,
      or_false] at hname
    rcases hname with rfl | rfl
    · exact reqField_not_ok_of_mem_bad hmem
        (fun c hc => hbad ⟨c, hc⟩) _ h1
    · exact reqField_not_ok_of_mem_bad hmem
        (fun s hs => hbad ⟨s, hs⟩) _ h2
  · intro fs name v hname hmem hnn hbad r hok
    obtain ⟨hc, hm, hh, hd, ha⟩ := decodeWeather_ok hok
    simp only [weatherSectionNames, List.mem_cons, List.not_mem_nil,
      or_false] at hname
    rcases hname with rfl | rfl | rfl | rfl | rfl
    · exact optField_not_ok_of_mem_bad hmem hnn
        (fun c hcv => hbad ⟨c, hcv⟩) _ hc
    · exact optField_not_ok_of_mem_bad hmem hnn
        (fun xs hxs => hbad ⟨xs, hxs⟩) _ hm
    · exact optField_not_ok_of_mem_bad hmem hnn
        (fun xs hxs => hbad ⟨xs, hxs⟩) _ hh
    · exact optField_not_ok_of_mem_bad hmem hnn
        (fun xs hxs => hbad ⟨xs, hxs⟩) _ hd
    · exact optField_not_ok_of_mem_bad hmem hnn
        (fun xs hxs => hbad ⟨xs, hxs⟩) _ ha

/-- Witness for C7 at concrete inputs. -/
theorem c7_all_or_nothing_witness :
    decodeCurrent (.obj []) ≠ .ok currentValue ∧
    decodeCurrent (.obj [("pressure", Json.str "x")]) ≠ .ok currentValue ∧
    decodeMinutely (.obj [("dt", Json.str "now")]) ≠
      .ok ⟨⟨⟨0, 0⟩, .UTC⟩, .posInt 0⟩ ∧
    decodeWeather (.obj [("current", Json.bool true)]) ≠
      .ok (Weather.mk none none none none none) := by
  obtain ⟨m1, _, _, m4, _, _, _, _, _, _, b1, _, _, b4, _, _, _, _, _, _,
    ws, _⟩ := c7_all_or_nothing
  exact ⟨m1 [] "temp" (by decide) (by decide) currentValue,
    b1 [("pressure", Json.str "x")] "pressure" (Json.str "x") (by decide)
      (List.mem_singleton.mpr rfl)
      (fun hx => hx.elim (fun n hn => Except.noConfusion hn)) currentValue,
    b4 [("dt", Json.str "now")] "dt" (Json.str "now") (by decide)
      (List.mem_singleton.mpr rfl)
      (fun hx => hx.elim (fun z hz => Except.noConfusion hz))
      ⟨⟨⟨0, 0⟩, .UTC⟩, .posInt 0⟩,
    ws [("current", Json.bool true)] "current" (Json.bool true) (by decide)
      (List.mem_singleton.mpr rfl) rfl
      (fun hx => hx.elim (fun c hcv => Except.noConfusion hcv))
      (Weather.mk none none none none none)⟩

/-- C8: for every optional field of every record (`visibility`,
`wind_gust`, `rain`, `snow` of `Current` and `Hourly`; `wind_gust`, `rain`,
`snow` of `Daily`; the five sections of `Weather`), binding the key
explicitly to JSON `null` decodes identically to leaving the key absent,
and an absent key decodes to `none` — never to a substituted default. -/
theorem c8_optional_null_eq_absent :
    ((∀ fs : List (String × Json), "visibility" ∉ fs.map Prod.fst →
        decodeCurrent (.obj (("visibility", Json.null) :: fs)) =
          decodeCurrent (.obj fs)) ∧
     (∀ (fs : List (String × Json)) (r : Current),
        "visibility" ∉ fs.map Prod.fst →
        decodeCurrent (.obj fs) = .ok r → r.visibility = none)) ∧
    ((∀ fs : List (String × Json), "wind_gust" ∉ fs.map Prod.fst →
        decodeCurrent (.obj (("wind_gust", Json.null) :: fs)) =
          decodeCurrent (.obj fs)) ∧
     (∀ (fs : List (String × Json)) (r : Current),
        "wind_gust" ∉ fs.map Prod.fst →
        decodeCurrent (.obj fs) = .ok r → r.wind_gust = none)) ∧
    ((∀ fs : List (String × Json), "rain" ∉ fs.map Prod.fst →
        decodeCurrent (.obj (("rain", Json.null) :: fs)) =
          decodeCurrent (.obj fs)) ∧
     (∀ (fs : List (String × Json)) (r : Current),
        "rain" ∉ fs.map Prod.fst →
        decodeCurrent (.obj fs) = .ok r → r.rain = none)) ∧
    ((∀ fs : List (String × Json), "snow" ∉ fs.map Prod.fst →
        decodeCurrent (.obj (("snow", Json.null) :: fs)) =
          decodeCurrent (.obj fs)) ∧
     (∀ (fs : List (String × Json)) (r : Current),
        "snow" ∉ fs.map Prod.fst →
        decodeCurrent (.obj fs) = .ok r → r.snow = none)) ∧
    ((∀ fs : List (String × Json), "visibility" ∉ fs.map Prod.fst →
        decodeHourly (.obj (("visibility", Json.null) :: fs)) =
          decodeHourly (.obj fs)) ∧
     (∀ (fs : List (String × Json)) (r : Hourly),
        "visibility" ∉ fs.map Prod.fst →
        decodeHourly (.obj fs) = .ok r → r.visibility = none)) ∧
    ((∀ fs : List (String × Json), "wind_gust" ∉ fs.map Prod.fst →
        decodeHourly (.obj (("wind_gust", Json.null) :: fs)) =
          decodeHourly (.obj fs)) ∧
     (∀ (fs : List (String × Json)) (r : Hourly),
        "wind_gust" ∉ fs.map Prod.fst →
        decodeHourly (.obj fs) = .ok r → r.wind_gust = none)) ∧
    ((∀ fs : List (String × Json), "rain" ∉ fs.map Prod.fst →
        decodeHourly (.obj (("rain", Json.null) :: fs)) =
          decodeHourly (.obj fs)) ∧
     (∀ (fs : List (String × Json)) (r : Hourly),
        "rain" ∉ fs.map Prod.fst →
        decodeHourly (.obj fs) = .ok r → r.rain = none)) ∧
    ((∀ fs : List (String × Json), "snow" ∉ fs.map Prod.fst →
        decodeHourly (.obj (("snow", Json.null) :: fs)) =
          decodeHourly (.obj fs)) ∧
     (∀ (fs : List (String × Json)) (r : Hourly),
        "snow" ∉ fs.map Prod.fst →
        decodeHourly (.obj fs) = .ok r → r.snow = none)) ∧
    ((∀ fs : List (String × Json), "wind_gust" ∉ fs.map Prod.fst →
        decodeDaily (.obj (("wind_gust", Json.null) :: fs)) =
          decodeDaily (.obj fs)) ∧
     (∀ (fs : List (String × Json)) (r : Daily),
        "wind_gust" ∉ fs.map Prod.fst →
        decodeDaily (.obj fs) = .ok r → r.wind_gust = none)) ∧
    ((∀ fs : List (String × Json), "rain" ∉ fs.map Prod.fst →
        decodeDaily (.obj (("rain", Json.null) :: fs)) =
          decodeDaily (.obj fs)) ∧
     (∀ (fs : List (String × Json)) (r : Daily),
        "rain" ∉ fs.map Prod.fst →
        decodeDaily (.obj fs) = .ok r → r.rain = none)) ∧
    ((∀ fs : List (String × Json), "snow" ∉ fs.map Prod.fst →
        decodeDaily (.obj (("snow", Json.null) :: fs)) =
          decodeDaily (.obj fs)) ∧
     (∀ (fs : List (String × Json)) (r : Daily),
        "snow" ∉ fs.map Prod.fst →
        decodeDaily (.obj fs) = .ok r → r.snow = none)) ∧
    ((∀ fs : List (String × Json), "current" ∉ fs.map Prod.fst →
        decodeWeather (.obj (("current", Json.null) :: fs)) =
          decodeWeather (.obj fs)) ∧
     (∀ (fs : List (String × Json)) (r : Weather),
        "current" ∉ fs.map Prod.fst →
        decodeWeather (.obj fs) = .ok r → r.current = none)) ∧
    ((∀ fs : List (String × Json), "minutely" ∉ fs.map Prod.fst →
        decodeWeather (.obj (("minutely", Json.null) :: fs)) =
          decodeWeather (.obj fs)) ∧
     (∀ (fs : List (String × Json)) (r : Weather),
        "minutely" ∉ fs.map Prod.fst →
        decodeWeather (.obj fs) = .ok r → r.minutely = none)) ∧
    ((∀ fs : List (String × Json), "hourly" ∉ fs.map Prod.fst →
        decodeWeather (.obj (("hourly", Json.null) :: fs)) =
          decodeWeather (.obj fs)) ∧
     (∀ (fs : List (String × Json)) (r : Weather),
        "hourly" ∉ fs.map Prod.fst →
        decodeWeather (.obj fs) = .ok r → r.hourly = none)) ∧
    ((∀ fs : List (String × Json), "daily" ∉ fs.map Prod.fst →
        decodeWeather (.obj (("daily", Json.null) :: fs)) =
          decodeWeather (.obj fs)) ∧
     (∀ (fs : List (String × Json)) (r : Weather),
        "daily" ∉ fs.map Prod.fst →
        decodeWeather (.obj fs) = .ok r → r.daily = none)) ∧
    ((∀ fs : List (String × Json), "alerts" ∉ fs.map Prod.fst →
        decodeWeather (.obj (("alerts", Json.null) :: fs)) =
          decodeWeather (.obj fs)) ∧
     (∀ (fs : List (String × Json)) (r : Weather),
        "alerts" ∉ fs.map Prod.fst →
        decodeWeather (.obj fs) = .ok r → r.alerts = none)) :=
  ⟨⟨fun _ h => decodeCurrent_visibility_null h,
    fun _ _ h hok => by
      obtain ⟨_, _, _, _, _, _, _, _, _, _, hv, _, _, _, _, _, _⟩ :=
        decodeCurrent_ok hok
      exact optField_absent_val h hv⟩,
   ⟨fun _ h => decodeCurrent_wind_gust_null h,
    fun _ _ h hok => by
      obtain ⟨_, _, _, _, _, _, _, _, _, _, _, _, hg, _, _, _, _⟩ :=
        decodeCurrent_ok hok
      exact optField_absent_val h hg⟩,
   ⟨fun _ h => decodeCurrent_rain_null h,
    fun _ _ h hok => by
      obtain ⟨_, _, _, _, _, _, _, _, _, _, _, _, _, _, hr, _, _⟩ :=
        decodeCurrent_ok hok
      exact optField_absent_val h hr⟩,
   ⟨fun _ h => decodeCurrent_snow_null h,
    fun _ _ h hok => by
      obtain ⟨_, _, _, _, _, _, _, _, _, _, _, _, _, _, _, hs2, _⟩ :=
        decodeCurrent_ok hok
      exact optField_absent_val h hs2⟩,
   ⟨fun _ h => decodeHourly_visibility_null h,
    fun _ _ h hok => by
      obtain ⟨_, _, _, _, _, _, _, _, hv, _, _, _, _, _, _, _⟩ :=
        decodeHourly_ok hok
      exact optField_absent_val h hv⟩,
   ⟨fun _ h => decodeHourly_wind_gust_null h,
    fun _ _ h hok => by
      obtain ⟨_, _, _, _, _, _, _, _, _, _, hg, _, _, _, _, _⟩ :=
        decodeHourly_ok hok
      exact optField_absent_val h hg⟩,
   ⟨fun _ h => decodeHourly_rain_null h,
    fun _ _ h hok => by
      obtain ⟨_, _, _, _, _, _, _, _, _, _, _, _, _, hr, _, _⟩ :=
        decodeHourly_ok hok
      exact optField_absent_val h hr⟩,
   ⟨fun _ h => decodeHourly_snow_null h,
    fun _ _ h hok => by
      obtain ⟨_, _, _, _, _, _, _, _, _, _, _, _, _, _, hs2, _⟩ :=
        decodeHourly_ok hok
      exact optField_absent_val h hs2⟩,
   ⟨fun _ h => decodeDaily_wind_gust_null h,
    fun _ _ h hok => by
      obtain ⟨_, _, _, _, _, _, _, _, _, _, _, _, hg, _, _, _, _, _, _, _⟩ :=
        decodeDaily_ok hok
      exact optField_absent_val h hg⟩,
   ⟨fun _ h => decodeDaily_rain_null h,
    fun _ _ h hok => by
      obtain ⟨_, _, _, _, _, _, _, _, _, _, _, _, _, _, _, _, _, hr, _, _⟩ :=
        decodeDaily_ok hok
      exact optField_absent_val h hr⟩,
   ⟨fun _ h => decodeDaily_snow_null h,
    fun _ _ h hok => by
      obtain ⟨_, _, _, _, _, _, _, _, _, _, _, _, _, _, _, _, _, _, hs2, _⟩
        := decodeDaily_ok hok
      exact optField_absent_val h hs2⟩,
   ⟨fun _ h => decodeWeather_current_null h,
    fun _ _ h hok => by
      obtain ⟨hc, _, _, _, _⟩ := decodeWeather_ok hok
      exact optField_absent_val h hc⟩,
   ⟨fun _ h => decodeWeather_minutely_null h,
    fun _ _ h hok => by
      obtain ⟨_, hm, _, _, _⟩ := decodeWeather_ok hok
      exact optField_absent_val h hm⟩,
   ⟨fun _ h => decodeWeather_hourly_null h,
    fun _ _ h hok => by
      obtain ⟨_, _, hh, _, _⟩ := decodeWeather_ok hok
      exact optField_absent_val h hh⟩,
   ⟨fun _ h => decodeWeather_daily_null h,
    fun _ _ h hok => by
      obtain ⟨_, _, _, hd, _⟩ := decodeWeather_ok hok
      exact optField_absent_val h hd⟩,
   ⟨fun _ h => decodeWeather_alerts_null h,
    fun _ _ h hok => by
      obtain ⟨_, _, _, _, ha⟩ := decodeWeather_ok hok
      exact optField_absent_val h ha⟩⟩

/-- Witness for C8 at concrete inputs. -/
theorem c8_optional_null_eq_absent_witness :
    decodeCurrent (.obj [("visibility", Json.null)]) =
      decodeCurrent (.obj []) ∧
    (Weather.mk (some currentValue) none none none none).minutely = none := by
  obtain ⟨⟨hA, _⟩, _, _, _, _, _, _, _, _, _, _, _, ⟨_, hB⟩, _, _, _⟩ :=
    c8_optional_null_eq_absent
  exact ⟨hA [] (by decide),
    hB [("current", Json.obj currentFieldsJson)]
      (Weather.mk (some currentValue) none none none none) (by decide) rfl⟩

/-- C9: the display rendering of a decoded error envelope is exactly
`"OWM error \x7bcode\x7d: \x7bmessage\x7d"`, with a textual code rendered verbatim and a
numeric code rendered in decimal. -/
theorem c9_display_format :
    (∀ s msg : String,
      displayOwmError ⟨.String s, msg⟩ = "OWM error " ++ s ++ ": " ++ msg) ∧
    (∀ (n : Int) (msg : String),
      displayOwmError ⟨.Number n, msg⟩ =
        "OWM error " ++ toString n ++ ": " ++ msg) ∧
    displayOwmError ⟨.String "404", "Invalid API key"⟩ =
      "OWM error 404: Invalid API key" ∧
    displayOwmError ⟨.Number 404, "Invalid API key"⟩ =
      "OWM error 404: Invalid API key" ∧
    displayOwmError ⟨.Number (-7), "x"⟩ = "OWM error -7: x" :=
  ⟨fun _ _ => rfl, fun _ _ => rfl, rfl, rfl, rfl⟩

/-- A JSON value that the claim describes as out of range for `u16`:
negative, fractional, or greater than 65535. -/
def badU16 (v : Json) : Prop :=
  (∃ i : Int, i < 0 ∧ v = .num (.negInt i)) ∨
  (∃ m e : Int, v = .num (.float m e)) ∨
  (∃ n : Nat, 65535 < n ∧ v = .num (.posInt n))

/-- A JSON value that the claim describes as out of range for `u8`:
negative, fractional, or greater than 255. -/
def badU8 (v : Json) : Prop :=
  (∃ i : Int, i < 0 ∧ v = .num (.negInt i)) ∨
  (∃ m e : Int, v = .num (.float m e)) ∨
  (∃ n : Nat, 255 < n ∧ v = .num (.posInt n))

theorem decodeU16_bad {v : Json} (h : badU16 v) :
    ∀ x : Nat, decodeU16 v ≠ .ok x := by
  intro x hx
  rcases h with ⟨i, hi, rfl⟩ | ⟨m, e, rfl⟩ | ⟨n, hn, rfl⟩
  · have hx2 : (if 0 ≤ i ∧ i ≤ 65535 then (Except.ok i.toNat : Except DecErr Nat)
        else .error (.invalidValue (toString i) "u16")) = .ok x := hx
    rw [if_neg (by omega)] at hx2
    exact Except.noConfusion hx2
  · exact Except.noConfusion hx
  · have hx2 : (if n ≤ 65535 then (Except.ok n : Except DecErr Nat)
        else .error (.invalidValue (toString n) "u16")) = .ok x := hx
    rw [if_neg (by omega)] at hx2
    exact Except.noConfusion hx2

theorem decodeU8_bad {v : Json} (h : badU8 v) :
    ∀ x : Nat, decodeU8 v ≠ .ok x := by
  intro x hx
  rcases h with ⟨i, hi, rfl⟩ | ⟨m, e, rfl⟩ | ⟨n, hn, rfl⟩
  · have hx2 : (if 0 ≤ i ∧ i ≤ 255 then (Except.ok i.toNat : Except DecErr Nat)
        else .error (.invalidValue (toString i) "u8")) = .ok x := hx
    rw [if_neg (by omega)] at hx2
    exact Except.noConfusion hx2
  · exact Except.noConfusion hx
  · have hx2 : (if n ≤ 255 then (Except.ok n : Except DecErr Nat)
        else .error (.invalidValue (toString n) "u8")) = .ok x := hx
    rw [if_neg (by omega)] at hx2
    exact Except.noConfusion hx2

theorem badU16_not_null {v : Json} (h : badU16 v) : v.isNull = false := by
  rcases h with ⟨i, hi, rfl⟩ | ⟨m, e, rfl⟩ | ⟨n, hn, rfl⟩ <;> rfl

/-- C10: the decoder bounds `pressure`/`wind_deg`/`visibility` to `u16` and
`humidity`/`clouds` to `u8`: in `Current`, `Hourly`, and `Daily`, a binding
of such a field to a negative, fractional, or too-large number makes the
whole record's decode fail — the value is never accepted or truncated. -/
theorem c10_unsigned_bounds :
    (∀ (fs : List (String × Json)) (v : Json), ("pressure", v) ∈ fs →
      badU16 v → ∀ r : Current, decodeCurrent (.obj fs) ≠ .ok r) ∧
    (∀ (fs : List (String × Json)) (v : Json), ("wind_deg", v) ∈ fs →
      badU16 v → ∀ r : Current, decodeCurrent (.obj fs) ≠ .ok r) ∧
    (∀ (fs : List (String × Json)) (v : Json), ("visibility", v) ∈ fs →
      badU16 v → ∀ r : Current, decodeCurrent (.obj fs) ≠ .ok r) ∧
    (∀ (fs : List (String × Json)) (v : Json), ("humidity", v) ∈ fs →
      badU8 v → ∀ r : Current, decodeCurrent (.obj fs) ≠ .ok r) ∧
    (∀ (fs : List (String × Json)) (v : Json), ("clouds", v) ∈ fs →
      badU8 v → ∀ r : Current, decodeCurrent (.obj fs) ≠ .ok r) ∧
    (∀ (fs : List (String × Json)) (v : Json), ("pressure", v) ∈ fs →
      badU16 v → ∀ r : Hourly, decodeHourly (.obj fs) ≠ .ok r) ∧
    (∀ (fs : List (String × Json)) (v : Json), ("wind_deg", v) ∈ fs →
      badU16 v → ∀ r : Hourly, decodeHourly (.obj fs) ≠ .ok r) ∧
    (∀ (fs : List (String × Json)) (v : Json), ("visibility", v) ∈ fs →
      badU16 v → ∀ r : Hourly, decodeHourly (.obj fs) ≠ .ok r) ∧
    (∀ (fs : List (String × Json)) (v : Json), ("humidity", v) ∈ fs →
      badU8 v → ∀ r : Hourly, decodeHourly (.obj fs) ≠ .ok r) ∧
    (∀ (fs : List (String × Json)) (v : Json), ("clouds", v) ∈ fs →
      badU8 v → ∀ r : Hourly, decodeHourly (.obj fs) ≠ .ok r) ∧
    (∀ (fs : List (String × Json)) (v : Json), ("pressure", v) ∈ fs →
      badU16 v → ∀ r : Daily, decodeDaily (.obj fs) ≠ .ok r) ∧
    (∀ (fs : List (String × Json)) (v : Json), ("wind_deg", v) ∈ fs →
      badU16 v → ∀ r : Daily, decodeDaily (.obj fs) ≠ .ok r) ∧
    (∀ (fs : List (String × Json)) (v : Json), ("humidity", v) ∈ fs →
      badU8 v → ∀ r : Daily, decodeDaily (.obj fs) ≠ .ok r) ∧
    (∀ (fs : List (String × Json)) (v : Json), ("clouds", v) ∈ fs →
      badU8 v → ∀ r : Daily, decodeDaily (.obj fs) ≠ .ok r) :=
  ⟨fun _ _ hmem hb _ hok => by
      obtain ⟨_, _, _, _, _, hp, _, _, _, _, _, _, _, _, _, _, _⟩ :=
        decodeCurrent_ok hok
      exact reqField_not_ok_of_mem_bad hmem (decodeU16_bad hb) _ hp,
   fun _ _ hmem hb _ hok => by
      obtain ⟨_, _, _, _, _, _, _, _, _, _, _, _, _, hw, _, _, _⟩ :=
        decodeCurrent_ok hok
      exact reqField_not_ok_of_mem_bad hmem (decodeU16_bad hb) _ hw,
   fun _ _ hmem hb _ hok => by
      obtain ⟨_, _, _, _, _, _, _, _, _, _, hv, _, _, _, _, _, _⟩ :=
        decodeCurrent_ok hok
      exact optField_not_ok_of_mem_bad hmem (badU16_not_null hb)
        (decodeU16_bad hb) _ hv,
   fun _ _ hmem hb _ hok => by
      obtain ⟨_, _, _, _, _, _, hh, _, _, _, _, _, _, _, _, _, _⟩ :=
        decodeCurrent_ok hok
      exact reqField_not_ok_of_mem_bad hmem (decodeU8_bad hb) _ hh,
   fun _ _ hmem hb _ hok => by
      obtain ⟨_, _, _, _, _, _, _, _, hc, _, _, _, _, _, _, _, _⟩ :=
        decodeCurrent_ok hok
      exact reqField_not_ok_of_mem_bad hmem (decodeU8_bad hb) _ hc,
   fun _ _ hmem hb _ hok => by
      obtain ⟨_, _, _, hp, _, _, _, _, _, _, _, _, _, _, _, _⟩ :=
        decodeHourly_ok hok
      exact reqField_not_ok_of_mem_bad hmem (decodeU16_bad hb) _ hp,
   fun _ _ hmem hb _ hok => by
      obtain ⟨_, _, _, _, _, _, _, _, _, _, _, hw, _, _, _, _⟩ :=
        decodeHourly_ok hok
      exact reqField_not_ok_of_mem_bad hmem (decodeU16_bad hb) _ hw,
   fun _ _ hmem hb _ hok => by
      obtain ⟨_, _, _, _, _, _, _, _, hv, _, _, _, _, _, _, _⟩ :=
        decodeHourly_ok hok
      exact optField_not_ok_of_mem_bad hmem (badU16_not_null hb)
        (decodeU16_bad hb) _ hv,
   fun _ _ hmem hb _ hok => by
      obtain ⟨_, _, _, _, hh, _, _, _, _, _, _, _, _, _, _, _⟩ :=
        decodeHourly_ok hok
      exact reqField_not_ok_of_mem_bad hmem (decodeU8_bad hb) _ hh,
   fun _ _ hmem hb _ hok => by
      obtain ⟨_, _, _, _, _, _, _, hc, _, _, _, _, _, _, _, _⟩ :=
        decodeHourly_ok hok
      exact reqField_not_ok_of_mem_bad hmem (decodeU8_bad hb) _ hc,
   fun _ _ hmem hb _ hok => by
      obtain ⟨_, _, _, _, _, _, _, _, hp, _, _, _, _, _, _, _, _, _, _, _⟩
        := decodeDaily_ok hok
      exact reqField_not_ok_of_mem_bad hmem (decodeU16_bad hb) _ hp,
   fun _ _ hmem hb _ hok => by
      obtain ⟨_, _, _, _, _, _, _, _, _, _, _, _, _, hw, _, _, _, _, _, _⟩
        := decodeDaily_ok hok
      exact reqField_not_ok_of_mem_bad hmem (decodeU16_bad hb) _ hw,
   fun _ _ hmem hb _ hok => by
      obtain ⟨_, _, _, _, _, _, _, _, _, hh, _, _, _, _, _, _, _, _, _, _⟩
        := decodeDaily_ok hok
      exact reqField_not_ok_of_mem_bad hmem (decodeU8_bad hb) _ hh,
   fun _ _ hmem hb _ hok => by
      obtain ⟨_, _, _, _, _, _, _, _, _, _, _, _, _, _, hc, _, _, _, _, _⟩
        := decodeDaily_ok hok
      exact reqField_not_ok_of_mem_bad hmem (decodeU8_bad hb) _ hc⟩

/-- Witness for C10 at concrete inputs. -/
theorem c10_unsigned_bounds_witness :
    decodeCurrent (.obj [("pressure", .num (.posInt 70000))]) ≠
      .ok currentValue ∧
    decodeCurrent (.obj [("humidity", .num (.negInt (-1)))]) ≠
      .ok currentValue :=
  ⟨c10_unsigned_bounds.1 [("pressure", .num (.posInt 70000))]
      (.num (.posInt 70000)) (List.mem_singleton.mpr rfl)
      (Or.inr (Or.inr ⟨70000, by decide, rfl⟩)) currentValue,
   c10_unsigned_bounds.2.2.2.1 [("humidity", .num (.negInt (-1)))]
      (.num (.negInt (-1))) (List.mem_singleton.mpr rfl)
      (Or.inl ⟨-1, by decide, rfl⟩) currentValue⟩

end Owm
